import Mathlib

/-!
Verification development for the cluster-scripts repository: submission-script
generators for Gaussian / ORCA / ADF on several HPC clusters
(OCCIGEN, ADA, Irene, Jean Zay, LISA).

The Python sources are shallowly embedded: the per-variant `runvalues`
dictionary becomes the `Runvalues` structure, exceptions become
`Except String`, Python numbers become `Int` / `ℚ` (all float arithmetic in
these scripts is exact on dyadic rationals of small magnitude, so `ℚ` models
it exactly), and Python `set` fields are modelled as lists carrying the
process-specific iteration order together with the convention that equal sets
are equal up to permutation.
-/

unseal Rat.mul Rat.add Rat.sub Rat.inv

deriving instance DecidableEq for Except

set_option maxRecDepth 4000

/-- Substring search on character lists (Python `pat in s`). -/
def containsSub (l : List Char) (pat : List Char) : Bool :=
  match l with
  | [] => pat.isEmpty
  | _ :: rest => pat.isPrefixOf l || containsSub rest pat

/-- Python `pat in s` substring test. -/
def strContains (s pat : String) : Bool := containsSub s.data pat.data

/-- Split a character list at every occurrence of a separator character
(Python `s.split(sep)` for a one-character separator; every separator in
these scripts is one character). -/
def splitOnChar (sep : Char) : List Char → List (List Char)
  | [] => [[]]
  | c :: rest =>
    if c == sep then [] :: splitOnChar sep rest
    else
      match splitOnChar sep rest with
      | [] => [[c]]
      | h :: t => (c :: h) :: t

/-- Python `s.split(sep)` for a one-character separator. -/
def pySplitChar (sep : Char) (s : String) : List String :=
  (splitOnChar sep s.data).map String.mk

/-- Split a character list at every character satisfying a predicate. -/
def splitOnChar2 (p : Char → Bool) : List Char → List (List Char)
  | [] => [[]]
  | c :: rest =>
    if p c then [] :: splitOnChar2 p rest
    else
      match splitOnChar2 p rest with
      | [] => [[c]]
      | h :: t => (c :: h) :: t

/-- Python `s[:-n]` for `0 < n ≤ len(s)`: drop the last `n` characters. -/
def strDropRight (s : String) (n : Nat) : String :=
  String.mk (s.data.take (s.data.length - n))

/-- Drop the longest suffix whose characters satisfy `p`. -/
def dropRightWhileCL (p : Char → Bool) (l : List Char) : List Char :=
  (l.reverse.dropWhile p).reverse

/-- Python `s.rstrip("\n")`. -/
def rstripNl (s : String) : String :=
  String.mk (dropRightWhileCL (· == '\n') s.data)

/-- Python `s.rstrip(" \n")`. -/
def rstripSpaceNl (s : String) : String :=
  String.mk (dropRightWhileCL (fun c => c == ' ' || c == '\n') s.data)

/-- ASCII lower-casing (Python `str.lower` on the ASCII text these scripts
handle). -/
def strLower (s : String) : String := String.mk (s.data.map Char.toLower)

/-- ASCII upper-casing (Python `str.upper`). -/
def strUpper (s : String) : String := String.mk (s.data.map Char.toUpper)

/-- A character of Python's whitespace class (ASCII range). -/
def isPyWs (c : Char) : Bool :=
  c == ' ' || c == '\t' || c == '\n' || c == '\x0b' || c == '\x0c' || c == '\r'

/-- Python `s.strip()`. -/
def pyStrip (s : String) : String :=
  String.mk (dropRightWhileCL isPyWs (s.data.dropWhile isPyWs))

/-- Numeric value of a list of decimal digit characters. -/
def digitsToNat (l : List Char) : Nat :=
  l.foldl (fun a c => 10 * a + (c.toNat - 48)) 0

/-- Python `int(s)` for a decimal string: surrounding whitespace allowed, one
optional sign, then at least one digit; `none` models the `ValueError`. -/
def pyInt? (s : String) : Option Int :=
  let l := (pyStrip s).data
  match l with
  | [] => none
  | c :: rest =>
    if c == '-' then
      if !rest.isEmpty && rest.all Char.isDigit then some (-(digitsToNat rest : Int)) else none
    else if c == '+' then
      if !rest.isEmpty && rest.all Char.isDigit then some ((digitsToNat rest : Int)) else none
    else if l.all Char.isDigit then some ((digitsToNat l : Int)) else none

/-- Python `math.ceil` on an exact rational: `-((-n) // d)`. -/
def pyCeil (q : ℚ) : Int := -((-q.num).fdiv q.den)

/-- Python `re.match(r"(\d+)([a-zA-Z]+)", s)`: a leading run of digits followed
by a run of ASCII letters; `none` models a failed match (the script then calls
`.groups()` on `None`, an `AttributeError`). -/
def memRegex? (s : String) : Option (Nat × String) :=
  let l := s.data
  let ds := l.takeWhile Char.isDigit
  if ds.isEmpty then none
  else
    let rest := l.drop ds.length
    let us := rest.takeWhile Char.isAlpha
    if us.isEmpty then none else some (digitsToNat ds, String.mk us)

/-- Python `set.add`, on the iteration-order list model of a set. -/
def setAdd (l : List String) (x : String) : List String :=
  if l.contains x then l else l ++ [x]

/-- Characters `shlex.quote` leaves unquoted. -/
def shlexSafeChar (c : Char) : Bool :=
  c.isAlphanum || c == '_' || c == '@' || c == '%' || c == '+' || c == '=' ||
    c == ':' || c == ',' || c == '.' || c == '/' || c == '-'

/-- Python `shlex.quote`. -/
def shlexQuote (s : String) : String :=
  if s == "" then "\x27\x27"
  else if s.data.all shlexSafeChar then s
  else "\x27" ++ String.mk ((s.data.map (fun c =>
    if c == '\x27' then ("\x27\"\x27\"\x27").data else [c])).flatten) ++ "\x27"

/-- Index of the last occurrence of a character in a list, if any. -/
def lastIdxOf (l : List Char) (c : Char) : Option Nat :=
  (l.foldl (fun (acc : Option Nat × Nat) ch =>
    (if ch == c then some acc.2 else acc.1, acc.2 + 1)) (none, 0)).1

/-- Python `os.path.splitext(p)[0]` (posix rules): the extension starts at the
last dot after the last slash, provided some earlier character of the
basename is not itself a dot. -/
def splitextRoot (p : String) : String :=
  let l := p.data
  let sepIdx : Int := match lastIdxOf l '/' with | none => -1 | some n => (n : Int)
  let dotIdx : Int := match lastIdxOf l '.' with | none => -1 | some n => (n : Int)
  if dotIdx > sepIdx then
    let fstart := (sepIdx + 1).toNat
    let mid := (l.drop fstart).take (dotIdx.toNat - fstart)
    if mid.any (fun c => c != '.') then String.mk (l.take dotIdx.toNat) else p
  else p

/-- Python `str` of the numbers these scripts put into script text: at every
such site the Python value is an `int`, which prints without a decimal point;
the model therefore prints the numerator of an integral rational. -/
def pyStrQ (q : ℚ) : String := if q.den = 1 then toString q.num else toString q

/-- Python `str(runvalues["memory"])`: `str(None)` is `"None"`. -/
def pyStrMem (m : Option ℚ) : String :=
  match m with | none => "None" | some q => pyStrQ q

/-- Python `str(runvalues["cores"])`: the default value is the empty string,
whose `str` is itself; an `int` prints as usual. -/
def pyStrCores (c : Option Int) : String :=
  match c with | none => "" | some n => toString n

/-- Python truthiness of the `cores` slot (`""`/`None` ↦ `none`, `int n` ↦
`some n`; `0` is falsy). -/
def coresTruthy (c : Option Int) : Bool :=
  match c with | none => false | some n => n != 0

/-- Sequencing of fallible steps (exactly `Except.bind`): an uncaught Python
exception aborts the rest of the function. -/
def pyStep {α β : Type} (x : Except String α) (f : α → Except String β) :
    Except String β :=
  match x with
  | .error e => .error e
  | .ok a => f a

/-- The memory-unit `elif` chain of the g16-era scanners (OCCIGEN g16,
Irene, Jean Zay): 1024-based byte units, word units divide by 8; an
unrecognized unit leaves the old value (no `elif` matches). -/
def mem_unit_to_mb_1024 (old : ℚ) (n : Nat) (u : String) : ℚ :=
  if u = "GB" then (n : ℚ) * 1024
  else if u = "GW" then (n : ℚ) * 1024 / 8
  else if u = "MB" then (n : ℚ)
  else if u = "MW" then (n : ℚ) / 8
  else old

/-- The memory-unit `elif` chain of the older g09-era scanners (OCCIGEN g09,
ADA): 1000-based byte units (`GW` is written `n / 8 * 1000` there). -/
def mem_unit_to_mb_1000 (old : ℚ) (n : Nat) (u : String) : ℚ :=
  if u = "GB" then (n : ℚ) * 1000
  else if u = "GW" then (n : ℚ) / 8 * 1000
  else if u = "MB" then (n : ℚ)
  else if u = "MW" then (n : ℚ) / 8
  else old

/-- Command-line values as produced by each variant's `get_options`
(`None` for an absent flag). -/
structure Cmdline where
  inputfile : String
  walltime : Option String
  memory : Option Int
  cores : Option Int
  nodes : Option Int
  deriving Repr, DecidableEq

/-- The `runvalues` dictionary.  One structure covers the union of the keys
used by the variants; a variant's functions only read and write the keys its
own source uses.  `chk`/`oldchk`/`rwf` are Python sets, modelled as lists
carrying the process's iteration order; `extra_files` (Irene, ORCA) is a
Python list.  `cores` is `""` (absent, `none`) or an `int`; `memory` is
`None`/absent or a number; memory figures are rationals since the sources mix
`int` and exact dyadic `float` arithmetic. -/
structure Runvalues where
  inputfile : String
  outputfile : String
  nodes : Int
  cores : Option Int
  walltime : String
  memory : Option ℚ
  gaussian_memory : ℚ
  chk : List String
  oldchk : List String
  rwf : List String
  extra_files : List String
  nproc_in_input : Bool
  memory_in_input : Bool
  nbo : Bool
  nbo_basefilename : String
  cluster_section : String
  deriving Repr, DecidableEq

/-- `fill_from_commandline`, textually identical in every variant: each
command-line slot overrides the current value when truthy. -/
def fill_from_commandline (rv : Runvalues) (c : Cmdline) : Runvalues :=
  let rv1 := { rv with inputfile := c.inputfile }
  let rv2 := match c.nodes with
    | some n => if n ≠ 0 then { rv1 with nodes := n } else rv1
    | none => rv1
  let rv3 := match c.cores with
    | some n => if n ≠ 0 then { rv2 with cores := some n } else rv2
    | none => rv2
  let rv4 := match c.walltime with
    | some w => if w ≠ "" then { rv3 with walltime := w } else rv3
    | none => rv3
  match c.memory with
  | some m => if m ≠ 0 then { rv4 with memory := some (m : ℚ) } else rv4
  | none => rv4

/-- Python `[int(x) for x in wt.split(":")]`. -/
def walltimeParts (wt : String) : Except String (List Int) :=
  (pySplitChar ':' wt).mapM (fun x =>
    match pyInt? x with
    | some n => Except.ok n
    | none => Except.error ("ValueError: invalid literal for int"))

/-- Python list indexing `l[i]` (raising `IndexError`). -/
def pyIdx (l : List Int) (i : Nat) : Except String Int :=
  match l.get? i with
  | some v => Except.ok v
  | none => Except.error ("IndexError: list index out of range")

namespace OccG16

/-! OCCIGEN Gaussian16 variant: `src/OCCIGEN/subg16.py`. -/

/-- `default_run_values` of `subg16.py`. -/
def default_run_values : Runvalues where
  inputfile := ""
  outputfile := ""
  nodes := 1
  cores := none
  walltime := "24:00:00"
  memory := some 4000
  gaussian_memory := 1000
  chk := []
  oldchk := []
  rwf := []
  extra_files := []
  nproc_in_input := false
  memory_in_input := false
  nbo := false
  nbo_basefilename := ""
  cluster_section := "HSW24"

/-- One line of `get_values_from_input_file`: the independent `if` branches
of the scanning loop, in source order.  Failure values model the uncaught
exceptions the Python would raise (`IndexError` from `split("=")[1]`,
`ValueError` from `int`, `AttributeError` from `.groups()` on a failed
regex match). -/
def scan_line (rv : Runvalues) (line : String) : Except String Runvalues :=
  let low := strLower line
  pyStep
    (if strContains low ("%nproc") then
      match (pySplitChar '=' line).get? 1 with
      | none => Except.error ("IndexError: list index out of range")
      | some v =>
        match pyInt? (rstripNl v) with
        | none => Except.error ("ValueError: invalid literal for int")
        | some c => Except.ok { rv with nproc_in_input := true, cores := some c }
    else Except.ok rv)
  fun rv =>
  pyStep
    (if strContains low ("%chk") then
      match (pySplitChar '=' line).get? 1 with
      | none => Except.error ("IndexError: list index out of range")
      | some v => Except.ok { rv with chk := setAdd rv.chk (rstripNl v) }
    else Except.ok rv)
  fun rv =>
  pyStep
    (if strContains low ("%oldchk") then
      match (pySplitChar '=' line).get? 1 with
      | none => Except.error ("IndexError: list index out of range")
      | some v => Except.ok { rv with oldchk := setAdd rv.oldchk (rstripNl v) }
    else Except.ok rv)
  fun rv =>
  pyStep
    (if strContains low ("%rwf") then
      match (pySplitChar '=' line).get? 1 with
      | none => Except.error ("IndexError: list index out of range")
      | some v => Except.ok { rv with rwf := setAdd rv.rwf (rstripNl v) }
    else Except.ok rv)
  fun rv =>
  pyStep
    (if strContains low ("%mem") then
      match (pySplitChar '=' line).get? 1 with
      | none => Except.error ("IndexError: list index out of range")
      | some v =>
        match memRegex? (rstripNl v) with
        | none => Except.error ("AttributeError: NoneType object has no attribute groups")
        | some (n, unit) =>
          Except.ok { rv with memory_in_input := true, gaussian_memory := mem_unit_to_mb_1024 rv.gaussian_memory n (strUpper unit) }
    else Except.ok rv)
  fun rv =>
  let rv := if strContains low ("nbo6") || strContains low ("npa6") then
      { rv with nbo := true } else rv
  pyStep
    (if strContains line ("FILE=") then
      match (pySplitChar '=' line).get? 1 with
      | none => Except.error ("IndexError: list index out of range")
      | some v => Except.ok { rv with nbo_basefilename := rstripSpaceNl v }
    else Except.ok rv)
  fun rv =>
  Except.ok rv

/-- `get_values_from_input_file`, iterating `scan_line` over the file's
lines. -/
def get_values_from_input_file (lines : List String) (rv : Runvalues) :
    Except String Runvalues :=
  lines.foldlM scan_line rv

/-- `compute_memory` of `subg16.py`.  The local variables `memory` and
`gaussian_memory` start at `0` and keep that value in branches that assign
neither.  A comparison of the absent-`cores` marker with an `int` would be a
Python `TypeError`, modelled as an error. -/
def compute_memory (rv : Runvalues) : Except String (ℚ × ℚ) :=
  if rv.memory_in_input then
    let g := rv.gaussian_memory
    if rv.nproc_in_input then
      match rv.cores with
      | none => Except.error ("TypeError: str-int comparison")
      | some c =>
        if 24 < c ∧ c ≤ 28 then Except.ok (59000, g)
        else if c = 24 then
          if g < 53000 then Except.ok (59000, g) else Except.ok (118000, g)
        else if c < 24 then Except.ok (max ((c : ℚ) * 4830) (g + 4096), g)
        else Except.ok (0, g)
    else
      if g < 53000 then Except.ok (59000, g) else Except.ok (118000, g)
  else
    if rv.nproc_in_input then
      match rv.cores with
      | none => Except.error ("TypeError: str-int comparison")
      | some c =>
        if 24 < c ∧ c ≤ 28 then Except.ok (59000, 53000)
        else if c = 24 then Except.ok (59000, 53000)
        else if c < 24 then Except.ok ((c : ℚ) * 4830, (c : ℚ) * 4830 - 4096)
        else Except.ok (0, 0)
    else Except.ok (59000, 53000)

/-- `fill_missing_values` of `subg16.py`: cluster-section selection with the
core/node checks, then memory computation and the two validations. -/
def fill_missing_values (rv : Runvalues) : Except String Runvalues :=
  pyStep
    (if rv.nproc_in_input = false then
      Except.ok { rv with cluster_section := "HSW24|BDW28" }
    else
      match rv.cores with
      | none => Except.error ("TypeError: str-int comparison")
      | some c =>
        if c ≤ 24 then Except.ok { rv with cluster_section := "HSW24" }
        else if c ≤ 28 then Except.ok { rv with cluster_section := "BDW28" }
        else if c > 28 ∧ rv.nodes = 1 then
          Except.error ("Number of cores cannot exceed 28 for one node.")
        else if rv.nodes > 1 then
          Except.error ("Multiple nodes not supported at the moment.")
        else Except.ok rv)
  fun rv =>
  pyStep (compute_memory rv) fun p =>
  let rv := { rv with memory := some p.1, gaussian_memory := p.2 }
  if p.1 - p.2 < 4096 then
    Except.error ("Too much memory required for Gaussian to run properly")
  else if p.2 > 118000 then
    Except.error ("Exceeded max allowed memory")
  else Except.ok rv

/-- Shell-escaped names, `create_shlexnames` of `subg16.py` (the
`is not None` guards are always true: the sets are created at defaults). -/
structure Shlexnames where
  inputfile : String
  basename : String
  chk : List String
  oldchk : List String
  rwf : List String
  deriving Repr, DecidableEq

/-- `create_shlexnames` of `subg16.py`. -/
def create_shlexnames (rv : Runvalues) : Shlexnames where
  inputfile := shlexQuote rv.inputfile
  basename := shlexQuote (splitextRoot rv.inputfile)
  chk := rv.chk.map shlexQuote
  oldchk := rv.oldchk.map shlexQuote
  rwf := rv.rwf.map shlexQuote

/-- `create_run_file` of `subg16.py`: the list of strings handed to
`writelines` (a Python `out.extend("…")` appends the string's characters one
by one, which joins to the same text, so it is kept as one element here).
The walltime is parsed where the source parses it; moving the parse ahead of
the pure list construction does not change the returned text.  Errors model
the `IndexError`/`ValueError` a malformed walltime raises, in which case no
script text is produced. -/
def create_run_file (rv : Runvalues) : Except String (List String) :=
  let sh := create_shlexnames rv
  pyStep (walltimeParts rv.walltime) fun w =>
  pyStep (pyIdx w 0) fun h =>
  pyStep (pyIdx w 1) fun mnt =>
  pyStep (pyIdx w 2) fun sec =>
  let runtime : Int := 3600 * h + 60 * mnt + sec - 60
  let out : List String :=
    ["#!/bin/bash\n",
     "#SBATCH -J " ++ sh.inputfile ++ "\n",
     "#SBATCH --constraint=" ++ rv.cluster_section ++ "\n#SBATCH --mail-type=ALL\n",
     "#SBATCH --mail-user=user@server.org\n",
     "#SBATCH --nodes=1\n"]
  let out := out ++
    (if rv.nproc_in_input then ["#SBATCH --ntasks=" ++ pyStrCores rv.cores ++ "\n"] else [])
  let out := out ++
    ["#SBATCH --mem=" ++ pyStrMem rv.memory ++ "\n",
     "#SBATCH --time=" ++ rv.walltime ++ "\n",
     "#SBATCH --output=" ++ sh.basename ++ ".slurmout\n",
     "\n"]
  let out := out ++
    (if !rv.nproc_in_input then
      ["# Compute actual cpu number\n",
       "NCPU=$(lscpu -p | egrep -v \x27^#\x27 | sort -u -t, -k 2,4 | wc -l)\n\n"]
     else [])
  let out := out ++
    ["# Load Gaussian Module\n", "module purge\n", "module load gaussian/G16/C.01\n", "\n",
     "# Setup Gaussian specific variables\n", "export g16root\n",
     "source $g16root/g16/bsd/g16.profile\n"]
  let out := out ++
    (if rv.nproc_in_input then ["export OMP_NUM_THREADS=$SLURM_NTASKS\n", "\n"]
     else ["export OMP_NUM_THREADS=$NCPU\n", "\n"])
  let out := out ++
    (if rv.nbo then
      ["# Setup NBO6\n", "export NBOBIN=$SHAREDHOMEDIR/nbo6/bin\n",
       "export PATH=$PATH:$NBOBIN\n", "\n"]
     else [])
  let out := out ++
    (if rv.nbo then
      ["# Setup NBO6\n", "export NBOBIN=$SHAREDHOMEDIR/nbo6_g16/bin\n",
       "export PATH=$PATH:$NBOBIN\n", "\n"]
     else [])
  let out := out ++
    ["# Setup Scratch\n", "export GAUSS_SCRDIR=$SCRATCHDIR/gaussian/$SLURM_JOB_ID\n",
     "mkdir -p $GAUSS_SCRDIR\n", "\n",
     "# Copy input file\n", "cp -f " ++ sh.inputfile ++ " $GAUSS_SCRDIR\n\n"]
  let out := out ++
    (if rv.chk ≠ [] then
      ["# Copy chk file in scratch if it exists\n"] ++
        (sh.chk.map (fun c =>
          ["if [ -f " ++ c ++ " ] \n", "then\n",
           "  cp " ++ c ++ " $GAUSS_SCRDIR\n", "fi\n\n"])).flatten
     else [])
  let out := out ++
    (if rv.oldchk ≠ [] then
      ["# Copy oldchk file in scratch if it exists\n"] ++
        (sh.oldchk.map (fun c =>
          ["if [ -f " ++ c ++ " ] \n", "then\n",
           "  cp " ++ c ++ " $GAUSS_SCRDIR\n", "fi\n\n"])).flatten
     else [])
  let out := out ++
    (if rv.rwf ≠ [] then
      ["# Copy rwf file in scratch if it exists\n"] ++
        (sh.rwf.map (fun c =>
          ["if [ -f " ++ c ++ " ] \n", "then\n",
           "  cp " ++ c ++ " $GAUSS_SCRDIR\n", "fi\n\n"])).flatten
     else [])
  let out := out ++
    ["cd $GAUSS_SCRDIR\n", "\n", "# Print job info in output file\n",
     "echo \"job_id : $SLURM_JOB_ID\"\n",
     "echo \"job_name : $SLURM_JOB_NAME\"\n",
     "echo \"node_number : $SLURM_JOB_NUM_NODES nodes\"\n",
     "echo \"core number : $SLURM_NTASKS cores\"\n",
     "echo \"Node list : $SLURM_JOB_NODELIST\"\n",
     "\n"]
  let out := out ++ ["# Start Gaussian\n", "( "]
  let out := out ++
    (if !rv.nproc_in_input then ["echo %NProcShared=$\x7bNCPU\x7d; "] else [])
  let out := out ++
    (if !rv.memory_in_input then
      ["echo %Mem=" ++ pyStrQ rv.gaussian_memory ++ "MB ; "] else [])
  let out := out ++
    ["cat " ++ sh.inputfile ++ " ) | ",
     "timeout " ++ toString runtime ++ " g16 > ",
     "" ++ sh.basename ++ ".log\n",
     "\n"]
  let out := out ++
    ["# Move files back to original directory\n",
     "cp " ++ sh.basename ++ ".log $SLURM_SUBMIT_DIR\n", "\n"]
  let out := out ++
    ["# If chk file exists, create fchk and copy everything\n",
     "for f in $GAUSS_SCRDIR/*.chk; do\n",
     "    [ -f \"$f\" ] && formchk $f\n",
     "done\n", "\n",
     "for f in $GAUSS_SCRDIR/*chk; do\n",
     "    [ -f \"$f\" ] && cp $f $SLURM_SUBMIT_DIR\n",
     "done\n", "\n"]
  let out := out ++
    (if rv.nbo then
      ["# Retrieve NBO Files\n",
       "cp " ++ rv.nbo_basefilename ++ ".* $SLURM_SUBMIT_DIR\n\n"]
     else [])
  let out := out ++
    ["# If Gaussian crashed or was stopped somehow, copy the rwf\n",
     "for f in $GAUSS_SCRDIR/*rwf; do\n",
     "    mkdir -p $SCRATCHDIR/gaussian/rwf\n    [ -f \"$f\" ] && mv $f $SCRATCHDIR/gaussian/rwf/"
       ++ sh.basename ++ "_$SLURM_JOB_ID.rwf\n",
     "done\n", "\n",
     "# Empty Scratch directory\n", "rm -rf $GAUSS_SCRDIR\n", "\n",
     "echo \"Computation finished.\"\n", "\n"]
  Except.ok out

/-- The byte content of the generated `.sh` file: `writelines` concatenates
the list. -/
def scriptText (rv : Runvalues) : Except String String :=
  (create_run_file rv).map String.join

end OccG16

namespace OccG09

/-! OCCIGEN Gaussian09 variant: `src/OCCIGEN/subg09.py`.  Its `%mem`
directive writes the `memory` slot (not `gaussian_memory`), its unit match is
case-sensitive and uses the 1000-based conversions, its `fill_missing_values`
performs no memory validation. -/

/-- `default_run_values` of `subg09.py` (cores default to 24). -/
def default_run_values : Runvalues :=
  { OccG16.default_run_values with cores := some 24 }

/-- `compute_memory` of `subg09.py`: the `memory` slot is never `None`
in reachable states (its default is 4000), but the source's `is not None`
test is kept. -/
def compute_memory (rv : Runvalues) : Except String (ℚ × ℚ) :=
  match rv.memory with
  | some m =>
    let gaussian_memory := m
    (match rv.cores with
     | none => Except.error ("TypeError: str-int comparison")
     | some c =>
       if gaussian_memory + 4000 < (c : ℚ) * 4800 then
         Except.ok (gaussian_memory + 4000, gaussian_memory)
       else Except.ok ((c : ℚ) * 4800, gaussian_memory))
  | none =>
    match rv.cores with
    | none => Except.error ("TypeError: str-int comparison")
    | some c => Except.ok ((c : ℚ) * 4800, (c : ℚ) * 4000)

/-- `fill_missing_values` of `subg09.py`: section selection and core/node
checks, then `compute_memory`; there is no overhead or ceiling validation
(the source carries a `TODO` about better memory checks). -/
def fill_missing_values (rv : Runvalues) : Except String Runvalues :=
  pyStep
    (match rv.cores with
    | none => Except.error ("TypeError: str-int comparison")
    | some c =>
      if c ≤ 24 then Except.ok { rv with cluster_section := "HSW24" }
      else if c ≤ 28 then Except.ok { rv with cluster_section := "BDW28" }
      else if c > 28 ∧ rv.nodes = 1 then
        Except.error ("Number of cores cannot exceed 28 for one node.")
      else if rv.nodes > 1 then
        Except.error ("Multiple nodes not supported at the moment.")
      else Except.ok rv)
  fun rv =>
  pyStep (compute_memory rv) fun p =>
  Except.ok { rv with memory := some p.1, gaussian_memory := p.2 }

end OccG09

namespace AdaG09

/-! ADA Gaussian09 variant: `src/ADA-Idris/subg09.py`.  Scanner with
case-sensitive unit matching and 1000-based GB/GW conversions. -/

/-- `default_run_values` of the ADA `subg09.py` (cores default to 24,
walltime `100:00:00`; the dictionary has no `cluster_section` key, so the
model's field keeps the structure default and is never used). -/
def default_run_values : Runvalues :=
  { OccG16.default_run_values with cores := some 24, walltime := "100:00:00" }

/-- One line of ADA's `get_values_from_input_file`.  The `%mem` unit match
is case-sensitive (`mem_unit == "GB"` etc.) and GB/GW convert with 1000;
the NBO base name comes from a `TITLE=` line and is not stripped. -/
def scan_line (rv : Runvalues) (line : String) : Except String Runvalues :=
  let low := strLower line
  pyStep
    (if strContains low ("%nproc") then
      match (pySplitChar '=' line).get? 1 with
      | none => Except.error ("IndexError: list index out of range")
      | some v =>
        match pyInt? (rstripNl v) with
        | none => Except.error ("ValueError: invalid literal for int")
        | some c => Except.ok { rv with nproc_in_input := true, cores := some c }
    else Except.ok rv)
  fun rv =>
  pyStep
    (if strContains low ("%chk") then
      match (pySplitChar '=' line).get? 1 with
      | none => Except.error ("IndexError: list index out of range")
      | some v => Except.ok { rv with chk := setAdd rv.chk (rstripNl v) }
    else Except.ok rv)
  fun rv =>
  pyStep
    (if strContains low ("%oldchk") then
      match (pySplitChar '=' line).get? 1 with
      | none => Except.error ("IndexError: list index out of range")
      | some v => Except.ok { rv with oldchk := setAdd rv.oldchk (rstripNl v) }
    else Except.ok rv)
  fun rv =>
  pyStep
    (if strContains low ("%rwf") then
      match (pySplitChar '=' line).get? 1 with
      | none => Except.error ("IndexError: list index out of range")
      | some v => Except.ok { rv with rwf := setAdd rv.rwf (rstripNl v) }
    else Except.ok rv)
  fun rv =>
  pyStep
    (if strContains low ("%mem") then
      match (pySplitChar '=' line).get? 1 with
      | none => Except.error ("IndexError: list index out of range")
      | some v =>
        match memRegex? (rstripNl v) with
        | none => Except.error ("AttributeError: NoneType object has no attribute groups")
        | some (n, unit) =>
          Except.ok { rv with memory_in_input := true, gaussian_memory := mem_unit_to_mb_1000 rv.gaussian_memory n unit }
    else Except.ok rv)
  fun rv =>
  let rv := if strContains low ("nbo6") || strContains low ("npa6") then
      { rv with nbo := true } else rv
  pyStep
    (if strContains line ("TITLE=") then
      match (pySplitChar '=' line).get? 1 with
      | none => Except.error ("IndexError: list index out of range")
      | some v => Except.ok { rv with nbo_basefilename := v }
    else Except.ok rv)
  fun rv =>
  Except.ok rv

/-- `get_values_from_input_file` of the ADA `subg09.py`. -/
def get_values_from_input_file (lines : List String) (rv : Runvalues) :
    Except String Runvalues :=
  lines.foldlM scan_line rv

/-- `compute_memory` of the ADA `subg09.py` (the `gaussian_memory is not
None` test is always true: the default is 1000). -/
def compute_memory (rv : Runvalues) : Except String (ℚ × ℚ) :=
  match rv.cores with
  | none => Except.error ("TypeError: str-int comparison")
  | some c =>
    let gaussian_memory := rv.gaussian_memory
    if gaussian_memory + (c : ℚ) * 1000 + 1000 < (c : ℚ) * 3500 then
      Except.ok (gaussian_memory + (c : ℚ) * 1000 + 1000, gaussian_memory)
    else Except.ok ((c : ℚ) * 3500, gaussian_memory)

/-- `fill_missing_values` of the ADA `subg09.py`: the core check compares
against 999 (a leftover, its message still names 28) and there is no memory
validation. -/
def fill_missing_values (rv : Runvalues) : Except String Runvalues :=
  pyStep
    (match rv.cores with
    | none => Except.error ("TypeError: str-int comparison")
    | some c =>
      if c > 999 ∧ rv.nodes = 1 then
        Except.error ("Number of cores cannot exceed 28 for one node.")
      else if rv.nodes > 1 then
        Except.error ("Multiple nodes not supported at the moment.")
      else Except.ok rv)
  fun rv =>
  pyStep (compute_memory rv) fun p =>
  Except.ok { rv with memory := some p.1, gaussian_memory := p.2 }

end AdaG09

/-- Python `s.split()` with no argument: whitespace-delimited fields
(`\s` and `str.split` agree on the ASCII whitespace these files contain). -/
def pySplitWs (s : String) : List String :=
  ((splitOnChar2 isPyWs s.data).filter (fun t => !t.isEmpty)).map String.mk

/-- Python `s.strip("\"")`. -/
def stripQuotes (s : String) : String :=
  String.mk (dropRightWhileCL (· == '"') (s.data.dropWhile (· == '"')))

namespace Irene

/-! Irene variant: `src/Irene/computations_setup.py` (class `Computation`),
driven by the thin wrapper `src/Irene/subg16.py`. -/

/-- `default_run_values` of the Irene `Computation` (its dictionary carries
`extra_files` instead of the chk/oldchk/rwf sets; the `chk`/`oldchk`/`rwf`
and `cluster_section` keys are created by `dict.fromkeys` but never
assigned, so the model's fields keep the structure defaults and no Irene
function reads them). -/
def default_run_values : Runvalues where
  inputfile := ""
  outputfile := ""
  nodes := 1
  cores := none
  walltime := "24:00:00"
  memory := some 4000
  gaussian_memory := 1000
  chk := []
  oldchk := []
  rwf := []
  extra_files := []
  nproc_in_input := false
  memory_in_input := false
  nbo := false
  nbo_basefilename := ""
  cluster_section := ""

/-- One line of `get_values_from_gaussian_input_file`: like the OCCIGEN g16
scanner, but `%chk`/`%oldchk`/`%rwf` names are appended to the
`extra_files` list. -/
def scan_gaussian_line (rv : Runvalues) (line : String) : Except String Runvalues :=
  let low := strLower line
  pyStep
    (if strContains low ("%nproc") then
      match (pySplitChar '=' line).get? 1 with
      | none => Except.error ("IndexError: list index out of range")
      | some v =>
        match pyInt? (rstripNl v) with
        | none => Except.error ("ValueError: invalid literal for int")
        | some c => Except.ok { rv with nproc_in_input := true, cores := some c }
    else Except.ok rv)
  fun rv =>
  pyStep
    (if strContains low ("%chk") then
      match (pySplitChar '=' line).get? 1 with
      | none => Except.error ("IndexError: list index out of range")
      | some v => Except.ok { rv with extra_files := rv.extra_files ++ [rstripNl v] }
    else Except.ok rv)
  fun rv =>
  pyStep
    (if strContains low ("%oldchk") then
      match (pySplitChar '=' line).get? 1 with
      | none => Except.error ("IndexError: list index out of range")
      | some v => Except.ok { rv with extra_files := rv.extra_files ++ [rstripNl v] }
    else Except.ok rv)
  fun rv =>
  pyStep
    (if strContains low ("%rwf") then
      match (pySplitChar '=' line).get? 1 with
      | none => Except.error ("IndexError: list index out of range")
      | some v => Except.ok { rv with extra_files := rv.extra_files ++ [rstripNl v] }
    else Except.ok rv)
  fun rv =>
  pyStep
    (if strContains low ("%mem") then
      match (pySplitChar '=' line).get? 1 with
      | none => Except.error ("IndexError: list index out of range")
      | some v =>
        match memRegex? (rstripNl v) with
        | none => Except.error ("AttributeError: NoneType object has no attribute groups")
        | some (n, unit) =>
          Except.ok { rv with memory_in_input := true, gaussian_memory := mem_unit_to_mb_1024 rv.gaussian_memory n (strUpper unit) }
    else Except.ok rv)
  fun rv =>
  let rv := if strContains low ("nbo6") || strContains low ("npa6") then
      { rv with nbo := true } else rv
  pyStep
    (if strContains line ("FILE=") then
      match (pySplitChar '=' line).get? 1 with
      | none => Except.error ("IndexError: list index out of range")
      | some v => Except.ok { rv with nbo_basefilename := rstripSpaceNl v }
    else Except.ok rv)
  fun rv =>
  Except.ok rv

/-- `get_values_from_gaussian_input_file`. -/
def get_values_from_gaussian_input_file (lines : List String) (rv : Runvalues) :
    Except String Runvalues :=
  lines.foldlM scan_gaussian_line rv

/-- Python `re.search(r"pal([0-9]+)", line, flags=re.IGNORECASE)` followed by
`int(extract.group()[3:])`: the numeric value after the leftmost
case-insensitive `pal` that is immediately followed by at least one digit. -/
def palSearch : List Char → Option Nat
  | [] => none
  | c :: rest =>
    match rest with
    | p2 :: p3 :: t =>
      if c.toLower == 'p' && p2.toLower == 'a' && p3.toLower == 'l' then
        let ds := t.takeWhile Char.isDigit
        if ds.isEmpty then palSearch rest else some (digitsToNat ds)
      else palSearch rest
    | _ => none

/-- Whether Python's `re.search(r"nprocs\s+([0-9]+)", s)` (case-sensitive)
matches at the start of `s`; returns the captured number. -/
def nprocsAt (s : List Char) : Option Nat :=
  if s.take 6 = ['n', 'p', 'r', 'o', 'c', 's'] then
    let after := s.drop 6
    let ws := after.takeWhile isPyWs
    if ws.isEmpty then none
    else
      let ds := (after.drop ws.length).takeWhile Char.isDigit
      if ds.isEmpty then none else some (digitsToNat ds)
  else none

/-- Leftmost match of `nprocs\s+([0-9]+)` in a line, as Python `re.search`. -/
def nprocsSearch : List Char → Option Nat
  | [] => none
  | c :: rest =>
    match nprocsAt (c :: rest) with
    | some n => some n
    | none => nprocsSearch rest

/-- One line of `get_values_from_orca_input_file`, in source branch order:
`pal` (inline `PAL<N>`; a failed regex search is silently ignored), `nprocs`
(a failed search raises, Python calls `.group()` on `None`), the NBO flags,
`FILE=`, `%moinp`, `InHessName`, `NEB_End_XYZFile`. -/
def scan_orca_line (rv : Runvalues) (line : String) : Except String Runvalues :=
  let low := strLower line
  let rv :=
    if strContains low ("pal") then
      match palSearch line.data with
      | some n => { rv with nproc_in_input := true, cores := some (n : Int) }
      | none => rv
    else rv
  pyStep
    (if strContains low ("nprocs") then
      match nprocsSearch line.data with
      | none => Except.error ("AttributeError: NoneType object has no attribute group")
      | some n => Except.ok { rv with nproc_in_input := true, cores := some (n : Int) }
    else Except.ok rv)
  fun rv =>
  let rv := if strContains low ("nbo6") || strContains low ("npa6") then
      { rv with nbo := true } else rv
  pyStep
    (if strContains line ("FILE=") then
      match (pySplitChar '=' line).get? 1 with
      | none => Except.error ("IndexError: list index out of range")
      | some v => Except.ok { rv with nbo_basefilename := rstripSpaceNl v }
    else Except.ok rv)
  fun rv =>
  pyStep
    (if strContains low ("moinp") then
      match (pySplitWs line).getLast? with
      | none => Except.error ("IndexError: list index out of range")
      | some v => Except.ok { rv with extra_files := rv.extra_files ++ [stripQuotes v] }
    else Except.ok rv)
  fun rv =>
  pyStep
    (if strContains low ("inhessname") then
      match (pySplitWs line).getLast? with
      | none => Except.error ("IndexError: list index out of range")
      | some v => Except.ok { rv with extra_files := rv.extra_files ++ [stripQuotes v] }
    else Except.ok rv)
  fun rv =>
  pyStep
    (if strContains line ("NEB_End_XYZFile") then
      match (pySplitWs line).get? 1 with
      | none => Except.error ("IndexError: list index out of range")
      | some v => Except.ok { rv with extra_files := rv.extra_files ++ [stripQuotes v] }
    else Except.ok rv)
  fun rv =>
  Except.ok rv

/-- `get_values_from_orca_input_file`. -/
def get_values_from_orca_input_file (lines : List String) (rv : Runvalues) :
    Except String Runvalues :=
  lines.foldlM scan_orca_line rv

/-- `compute_memory` of the Irene `Computation`: returns the updated
runvalues (the method mutates `cores`) together with `(memory,
gaussian_memory)`.  Python's `ceil(float(g) / 3750)` is exact integer
ceiling at these magnitudes. -/
def compute_memory (rv : Runvalues) : Runvalues × ℚ × ℚ :=
  if rv.memory_in_input then
    let g := rv.gaussian_memory
    match rv.cores with
    | some c =>
      if c ≠ 0 then
        if g / (c : ℚ) > 3750 then
          let c2 : Int := pyCeil (g / 3750)
          ({ rv with cores := some c2 }, 3750 * (c2 : ℚ), g)
        else (rv, 3750 * (c : ℚ), g)
      else (rv, g + 6000, g)
    | none => (rv, g + 6000, g)
  else
    match rv.cores with
    | some c =>
      if c ≠ 0 then (rv, 3750 * (c : ℚ), max (3750 * (c : ℚ) - 6000) 2000)
      else (rv, 180000, 170000)
    | none => (rv, 180000, 170000)

/-- `fill_missing_values` of the Irene `Computation`: node check, core-limit
check (only when `nproc_in_input`), memory computation, then the overhead
and ceiling validations. -/
def fill_missing_values (rv : Runvalues) : Except String Runvalues :=
  pyStep
    (if rv.nodes > 1 then
      Except.error ("Multiple nodes not supported on this cluster for gaussian.")
    else Except.ok ())
  fun _ =>
  pyStep
    (if rv.nproc_in_input then
      match rv.cores with
      | none => Except.error ("TypeError: str-int comparison")
      | some c =>
        if c > 48 then Except.error ("Number of cores cannot exceed 48 for one node.")
        else Except.ok ()
    else Except.ok ())
  fun _ =>
  let t := compute_memory rv
  let rv := { t.1 with memory := some t.2.1, gaussian_memory := t.2.2 }
  if t.2.1 - t.2.2 < 6000 then
    Except.error ("Too much memory required for Gaussian to run properly")
  else if t.2.2 > 180000 then
    Except.error ("Exceeded max allowed memory")
  else Except.ok rv

/-- `Computation.__init__`: defaults, then the command line, then the input
file (note the order: the file scan runs after the command-line merge), then
`fill_missing_values`. -/
def computation_init (software : String) (cmdline : Cmdline)
    (fileLines : List String) : Except String Runvalues :=
  let rv := default_run_values
  let rv := fill_from_commandline rv cmdline
  pyStep
    (if software = "g16" then get_values_from_gaussian_input_file fileLines rv
    else if software = "orca" then get_values_from_orca_input_file fileLines rv
    else Except.ok rv)
  fun rv =>
  fill_missing_values rv

end Irene

namespace JeanZay

/-! Jean Zay variant: `src/Idris_JeanZay/computations_setup.py` (class
`Computation`).  Its `__init__` runs defaults, the command-line merge and
`fill_missing_values` only: it never calls the input-file scanner. -/

/-- `default_run_values` of the Jean Zay `Computation` (walltime default
`20:00:00`). -/
def default_run_values : Runvalues :=
  { OccG16.default_run_values with walltime := "20:00:00" }

/-- `compute_memory` of the Jean Zay `Computation`: the scheduler request is
always 160000 MB; the software gets the declared figure when
`memory_in_input`, else 140000 MB. -/
def compute_memory (rv : Runvalues) : ℚ × ℚ :=
  if rv.memory_in_input then (160000, rv.gaussian_memory) else (160000, 140000)

/-- `fill_missing_values` of the Jean Zay `Computation`: the cluster-section
chain (with the 28-core and multi-node checks), then `compute_memory` and
the overhead/ceiling validations (6000 MB, 160000 MB). -/
def fill_missing_values (rv : Runvalues) : Except String Runvalues :=
  pyStep
    (if rv.nproc_in_input = false then
      Except.ok { rv with cluster_section := "HSW24|BDW28" }
    else
      match rv.cores with
      | none => Except.error ("TypeError: str-int comparison")
      | some c =>
        if c ≤ 24 then Except.ok { rv with cluster_section := "HSW24" }
        else if c ≤ 28 then Except.ok { rv with cluster_section := "BDW28" }
        else if c > 28 ∧ rv.nodes = 1 then
          Except.error ("Number of cores cannot exceed 28 for one node.")
        else if rv.nodes > 1 then
          Except.error ("Multiple nodes not supported on this cluster for gaussian.")
        else Except.ok rv)
  fun rv =>
  let p := compute_memory rv
  let rv := { rv with memory := some p.1, gaussian_memory := p.2 }
  if p.1 - p.2 < 6000 then
    Except.error ("Too much memory required for Gaussian to run properly")
  else if p.2 > 160000 then
    Except.error ("Exceeded max allowed memory")
  else Except.ok rv

/-- `Computation.__init__` of the Jean Zay variant: no file scan at all. -/
def computation_init (cmdline : Cmdline) : Except String Runvalues :=
  fill_missing_values (fill_from_commandline default_run_values cmdline)

/-- `create_shlexnames`, textually identical to the OCCIGEN g16 one. -/
def create_shlexnames (rv : Runvalues) : OccG16.Shlexnames :=
  OccG16.create_shlexnames rv

/-- `create_run_file` of the Jean Zay `Computation` (software is `"g09"` or
`"g16"`). -/
def create_run_file (software : String) (rv : Runvalues) :
    Except String (List String) :=
  let sh := create_shlexnames rv
  let out : List String :=
    ["#!/bin/bash\n",
     "#SBATCH -J " ++ sh.inputfile ++ "\n",
     "#SBATCH --mail-type=ALL\n",
     "#SBATCH --account=yck@cpu\n",
     "#SBATCH --mail-user=user@server.org\n",
     "#SBATCH --partition=cpu_p1\n",
     "#SBATCH --nodes=1\n"]
  pyStep (walltimeParts rv.walltime) fun w =>
  pyStep (pyIdx w 0) fun h =>
  pyStep (pyIdx w 1) fun mnt =>
  pyStep (pyIdx w 2) fun sec =>
  let out := out ++
    (if h * 3600 + mnt * 60 + sec > 72000 then ["#SBATCH --qos=qos_cpu-t4\n"]
     else ["#SBATCH --qos=qos_cpu-t3\n"])
  let out := out ++
    (if rv.nproc_in_input then ["#SBATCH --ntasks=" ++ pyStrCores rv.cores ++ "\n"]
     else ["#SBATCH --ntasks=40\n"])
  let out := out ++
    ["#SBATCH --mem=" ++ pyStrMem rv.memory ++ "\n",
     "#SBATCH --time=" ++ rv.walltime ++ "\n",
     "#SBATCH --output=" ++ sh.basename ++ ".slurmout\n",
     "\n"]
  let out := out ++
    (if !rv.nproc_in_input then
      ["# Compute actual cpu number\n",
       "NCPU=$(lscpu -p | egrep -v \x27^#\x27 | sort -u -t, -k 2,4 | wc -l)\n\n"]
     else [])
  let out := out ++
    (if software = "g09" then
      ["# Load Gaussian Module\n", "module purge\n",
       "module load gaussian/g09-revD01\n", "\n",
       "# Setup Gaussian specific variables\n",
       "export g09root=\x27/gpfslocalsup/prod/g09/rev-C01/\x27\n",
       "source $g09root/g09/bsd/g09.profile\n"]
     else if software = "g16" then
      ["# Load Gaussian Module\n", "module purge\n",
       "module load gaussian/g16-revC01\n", "\n",
       "# Setup Gaussian specific variables\n",
       "export g16root=\x27/gpfslocalsup/prod/g16/rev-C01/\x27\n",
       "source $g16root/g16/bsd/g16.profile\n"]
     else [])
  let out := out ++
    (if rv.nproc_in_input then ["export OMP_NUM_THREADS=$SLURM_NTASKS\n", "\n"]
     else ["export OMP_NUM_THREADS=$NCPU\n", "\n"])
  let out := out ++
    (if rv.nbo then
      ["# Setup NBO6\n", "export NBOBIN=$SHAREDHOMEDIR/nbo6/bin\n",
       "export PATH=$PATH:$NBOBIN\n", "\n"]
     else [])
  let out := out ++
    ["# Setup Scratch\n", "export GAUSS_SCRDIR=$SCRATCH/gaussian/$SLURM_JOB_ID\n",
     "mkdir -p $GAUSS_SCRDIR\n", "\n",
     "# Copy input file\n", "cp -f " ++ sh.inputfile ++ " $GAUSS_SCRDIR\n\n"]
  let out := out ++
    (if rv.chk ≠ [] then
      ["# Copy chk file in scratch if it exists\n"] ++
        (sh.chk.map (fun c =>
          ["if [ -f " ++ c ++ " ] \n", "then\n",
           "  cp " ++ c ++ " $GAUSS_SCRDIR\n", "fi\n\n"])).flatten
     else [])
  let out := out ++
    (if rv.oldchk ≠ [] then
      ["# Copy oldchk file in scratch if it exists\n"] ++
        (sh.oldchk.map (fun c =>
          ["if [ -f " ++ c ++ " ] \n", "then\n",
           "  cp " ++ c ++ " $GAUSS_SCRDIR\n", "fi\n\n"])).flatten
     else [])
  let out := out ++
    (if rv.rwf ≠ [] then
      ["# Copy rwf file in scratch if it exists\n"] ++
        (sh.rwf.map (fun c =>
          ["if [ -f " ++ c ++ " ] \n", "then\n",
           "  cp " ++ c ++ " $GAUSS_SCRDIR\n", "fi\n\n"])).flatten
     else [])
  let out := out ++
    ["cd $GAUSS_SCRDIR\n", "\n", "# Print job info in output file\n",
     "echo \"job_id : $SLURM_JOB_ID\"\n",
     "echo \"job_name : $SLURM_JOB_NAME\"\n",
     "echo \"node_number : $SLURM_JOB_NUM_NODES nodes\"\n",
     "echo \"core number : $SLURM_NTASKS cores\"\n",
     "echo \"Node list : $SLURM_JOB_NODELIST\"\n",
     "\n"]
  let runtime : Int := 3600 * h + 60 * mnt + sec - 60
  let out := out ++ ["# Start Gaussian\n", "( "]
  let out := out ++
    (if !rv.nproc_in_input then ["echo %NProcShared=$\x7bNCPU\x7d; "] else [])
  let out := out ++
    (if !rv.memory_in_input then
      ["echo %Mem=" ++ pyStrQ rv.gaussian_memory ++ "MB ; "] else [])
  let out := out ++
    (if software = "g09" then
      ["cat " ++ sh.inputfile ++ " ) | ",
       "timeout " ++ toString runtime ++ " g09 > ",
       "" ++ sh.basename ++ ".log\n", "\n"]
     else if software = "g16" then
      ["cat " ++ sh.inputfile ++ " ) | ",
       "timeout " ++ toString runtime ++ " g16 > ",
       "" ++ sh.basename ++ ".log\n", "\n"]
     else [])
  let out := out ++
    ["# Move files back to original directory\n",
     "cp " ++ sh.basename ++ ".log $SLURM_SUBMIT_DIR\n", "\n"]
  let out := out ++
    ["# If chk file exists, create fchk and copy everything\n",
     "for f in $GAUSS_SCRDIR/*.chk; do\n",
     "    [ -f \"$f\" ] && formchk $f\n",
     "done\n", "\n",
     "for f in $GAUSS_SCRDIR/*chk; do\n",
     "    [ -f \"$f\" ] && cp $f $SLURM_SUBMIT_DIR\n",
     "done\n", "\n"]
  let out := out ++
    (if rv.nbo then
      ["# Retrieve NBO Files\n",
       "cp " ++ rv.nbo_basefilename ++ ".* $SLURM_SUBMIT_DIR\n\n"]
     else [])
  let out := out ++
    ["# If Gaussian crashed or was stopped somehow, copy the rwf\n",
     "for f in $GAUSS_SCRDIR/*rwf; do\n",
     "    mkdir -p $SCRATCH/gaussian/rwf\n    [ -f \"$f\" ] && mv $f $SCRATCH/gaussian/rwf/"
       ++ sh.basename ++ "_$SLURM_JOB_ID.rwf\n",
     "done\n", "\n",
     "# Empty Scratch directory\n", "rm -rf $GAUSS_SCRDIR\n", "\n",
     "echo \"Computation finished.\"\n", "\n"]
  Except.ok out

end JeanZay

namespace OccOrca

/-! OCCIGEN ORCA variant: `src/OCCIGEN/suborca.py`. -/

/-- `default_run_values` of `suborca.py` (cores default 24, memory default
58000). -/
def default_run_values : Runvalues :=
  { OccG16.default_run_values with cores := some 24, memory := some 58000 }

/-- One line of `suborca.py`'s `get_values_from_input_file`: only a `nprocs`
token is recognized as a core directive (there is no `PAL` handling); then
the NBO flags, `FILE=`, `%moinp`, `InHessName`, `NEB_End_XYZFile`. -/
def scan_line (rv : Runvalues) (line : String) : Except String Runvalues :=
  let low := strLower line
  pyStep
    (if strContains low ("nprocs") then
      match (pySplitWs line).get? 1 with
      | none => Except.error ("IndexError: list index out of range")
      | some v =>
        match pyInt? v with
        | none => Except.error ("ValueError: invalid literal for int")
        | some c => Except.ok { rv with nproc_in_input := true, cores := some c }
    else Except.ok rv)
  fun rv =>
  let rv := if strContains low ("nbo6") || strContains low ("npa6") then
      { rv with nbo := true } else rv
  pyStep
    (if strContains line ("FILE=") then
      match (pySplitChar '=' line).get? 1 with
      | none => Except.error ("IndexError: list index out of range")
      | some v => Except.ok { rv with nbo_basefilename := rstripSpaceNl v }
    else Except.ok rv)
  fun rv =>
  pyStep
    (if strContains low ("moinp") then
      match (pySplitWs line).getLast? with
      | none => Except.error ("IndexError: list index out of range")
      | some v => Except.ok { rv with extra_files := rv.extra_files ++ [stripQuotes v] }
    else Except.ok rv)
  fun rv =>
  pyStep
    (if strContains low ("inhessname") then
      match (pySplitWs line).getLast? with
      | none => Except.error ("IndexError: list index out of range")
      | some v => Except.ok { rv with extra_files := rv.extra_files ++ [stripQuotes v] }
    else Except.ok rv)
  fun rv =>
  pyStep
    (if strContains line ("NEB_End_XYZFile") then
      match (pySplitWs line).get? 1 with
      | none => Except.error ("IndexError: list index out of range")
      | some v => Except.ok { rv with extra_files := rv.extra_files ++ [stripQuotes v] }
    else Except.ok rv)
  fun rv =>
  Except.ok rv

/-- `get_values_from_input_file` of `suborca.py`. -/
def get_values_from_input_file (lines : List String) (rv : Runvalues) :
    Except String Runvalues :=
  lines.foldlM scan_line rv

/-- The runtime computed by `suborca.py`'s `create_run_file` (source comment:
runtime is walltime minus one minute, with at least one minute):
`max(3600*h + 60*m + s - 60, 60)`. -/
def runtime_seconds (wt : String) : Except String Int :=
  pyStep (walltimeParts wt) fun w =>
  pyStep (pyIdx w 0) fun h =>
  pyStep (pyIdx w 1) fun mnt =>
  pyStep (pyIdx w 2) fun sec =>
  Except.ok (max (3600 * h + 60 * mnt + sec - 60) 60)

end OccOrca

namespace LisaAdf

/-! LISA ADF variant: `src/LISA/subadf.py`.  Its `prepFile` rewrites the job
file in place: a flag line, PBS directives, fixed environment text, a
start-mail line, the original input lines (the `adf … <<eor` line gets an
output redirection appended), TAPE retrieval guards and an end-mail line. -/

/-- The LISA `runvalues` dictionary: all three values are strings. -/
structure LisaRunvalues where
  walltime : String
  nodes : String
  queue : String
  deriving Repr, DecidableEq

/-- `getdefaults` of `subadf.py`. -/
def getdefaults : LisaRunvalues where
  walltime := "120:00"
  nodes := "1"
  queue := "p16"

/-- The `StartupFlag` marker. -/
def startupFlag : String := "###--- File automatically edited by subadf script ---###"

/-- `lisaSpecifics()` of `subadf.py`. -/
def lisaSpecifics : String :=
  "\nif [ -z \"$PBS_NODEFILE\" ]\nthen\n    >&2 echo ERROR: ADF should not be run interactively.\n    >&2 echo ERROR: Please use \"qsub $0 \" to submit this script as a batch job.\n    exit 1\nfi\n\n" ++
  "# Load the appropriate modules for running ADF 2014.\n# paffinity is to ensure that processes are bound to cores\n\nmodule load adf/2012.01\nmodule load paffinity\n\n" ++
  "# set the stacksize limit to 1 GB\nulimit -s 1048576\n\n" ++
  "# Compute the number of cores from the PBS nodefile\n# Set the ADF dependent environment variable NSCM to the number of tasks\n\nexport NSCM=`wc -l < $PBS_NODEFILE`\n\n" ++
  "# ADF specific environment:\nexport SCM_MACHINEFILE=$PBS_NODEFILE\nexport SCM_TMPDIR=\"$TMPDIR\"\nexport SCM_USETMPDIR=yes\n\n" ++
  "# for the MPI environment:\nexport NETWORK=ib\nexport MPIVERS=hpmpi\n\n" ++
  "# Change the current directory to where the batch job was submitted.\ncd $PBS_O_WORKDIR\n\n"

/-- The start-of-job mail line. -/
def mailBeginning (job : String) : String :=
  "echo \"Computation $PBS_JOBID (Job: " ++ job ++
    ") started at `date`.\" | mail $USER -s \"Job $PBS_JOBID\"\n"

/-- The end-of-job mail line. -/
def mailFinished (job : String) : String :=
  "echo \"Computation $PBS_JOBID (Job: " ++ job ++
    ") completed at `date`.\" | mail $USER -s \"Job $PBS_JOBID\"\n"

/-- The per-input-line transformation of `prepFile`: a line containing
`<<eor` (the adf invocation) is stripped and gets ` >> <base>.out` appended
(`fileName = input[:-4]`); every other line is copied unchanged. -/
def transformLine (inputName : String) (i : String) : String :=
  if !strContains i ("<<eor") then i
  else pyStrip i ++ " >> " ++ strDropRight inputName 4 ++ ".out\n"

/-- `prepFile` of `subadf.py`: the sequence of strings written to the new
job file (each `outFile.write` argument is one element; the file's byte
content is their concatenation). -/
def prepFile (inputName pathname : String) (rv : LisaRunvalues)
    (fileLines : List String) : List String :=
  [startupFlag ++ "\n",
   "#PBS -lnodes=" ++ rv.nodes ++ ":ppn=16\n",
   "#PBS -S /bin/bash\n",
   "#PBS -lwalltime=" ++ rv.walltime ++ ":00\n",
   lisaSpecifics,
   mailBeginning inputName] ++
  fileLines.map (transformLine inputName) ++
  ["if [ -f TAPE13 ];\n",
   "then mv TAPE13 " ++ (pathname ++ "/" ++ strDropRight inputName 3 ++ "t13") ++ "\n",
   "fi\n",
   "if [ -f TAPE10 ];\n",
   "then mv TAPE10 " ++ (pathname ++ "/" ++ strDropRight inputName 3 ++ "t10") ++ "\n",
   "fi\n",
   "if [ -f TAPE21 ];\n",
   "then mv TAPE21 " ++ (pathname ++ "/" ++ strDropRight inputName 3 ++ "t21") ++ "\n",
   "fi\n",
   "mv logfile " ++ (pathname ++ "/" ++ strDropRight inputName 3 ++ "logfile") ++ "\n",
   mailFinished inputName]

end LisaAdf

namespace OccG16

/-- The resolution pipeline of `subg16.py`'s `main` (lines 85-92): defaults,
then the input-file scan, then the command-line merge, then
`fill_missing_values`; on a `ValueError` the job is not submitted and no
script is written. -/
def main_resolve (lines : List String) (cmdline : Cmdline) :
    Except String Runvalues :=
  pyStep (get_values_from_input_file lines default_run_values) fun rv =>
  let rv := fill_from_commandline rv cmdline
  fill_missing_values rv

end OccG16

/-- Projections of `fill_from_commandline` untouched by any command-line
slot. -/
theorem fill_from_commandline_preserves (rv : Runvalues) (c : Cmdline) :
    (fill_from_commandline rv c).nproc_in_input = rv.nproc_in_input ∧
    (fill_from_commandline rv c).memory_in_input = rv.memory_in_input ∧
    (fill_from_commandline rv c).gaussian_memory = rv.gaussian_memory ∧
    (fill_from_commandline rv c).chk = rv.chk ∧
    (fill_from_commandline rv c).oldchk = rv.oldchk ∧
    (fill_from_commandline rv c).rwf = rv.rwf ∧
    (fill_from_commandline rv c).extra_files = rv.extra_files ∧
    (fill_from_commandline rv c).nbo = rv.nbo := by
  unfold fill_from_commandline
  rcases c with ⟨ci, cw, cm, cc, cn⟩
  dsimp only
  cases cn <;> cases cc <;> cases cw <;> cases cm <;>
    dsimp only <;> (try split_ifs) <;> simp

theorem pyStep_eq_ok {α β : Type} {x : Except String α} {f : α → Except String β} {b : β}
    (h : pyStep x f = .ok b) : ∃ a, x = .ok a ∧ f a = .ok b := by
  cases x with
  | error e => simp [pyStep] at h
  | ok a => exact ⟨a, rfl, by simpa [pyStep] using h⟩

theorem occ16_compute_bound (rv : Runvalues) (p : ℚ × ℚ) (c : Int)
    (hc : rv.cores = some c) (hnp : rv.nproc_in_input = true) (h1 : 1 ≤ c) (h2 : c ≤ 28)
    (h : OccG16.compute_memory rv = .ok p) : (c : ℚ) * 2107 ≤ p.1 := by
  have hcq1 : (1 : ℚ) ≤ (c : ℚ) := by exact_mod_cast h1
  have hcq2 : (c : ℚ) ≤ 28 := by exact_mod_cast h2
  unfold OccG16.compute_memory at h
  rw [hnp, hc] at h
  dsimp only at h
  split_ifs at h <;>
    first
      | (exfalso; omega)
      | (injection h with h; subst h; dsimp only;
          nlinarith [le_max_left ((c : ℚ) * 4830) (rv.gaussian_memory + 4096)])

theorem occ16_section_fields (rv rv1 : Runvalues)
    (h : (if rv.nproc_in_input = false then
        Except.ok { rv with cluster_section := "HSW24|BDW28" }
      else
        match rv.cores with
        | none => Except.error "TypeError: str-int comparison"
        | some c =>
          if c ≤ 24 then Except.ok { rv with cluster_section := "HSW24" }
          else if c ≤ 28 then Except.ok { rv with cluster_section := "BDW28" }
          else if c > 28 ∧ rv.nodes = 1 then
            Except.error "Number of cores cannot exceed 28 for one node."
          else if rv.nodes > 1 then
            Except.error "Multiple nodes not supported at the moment."
          else Except.ok rv) = Except.ok rv1) :
    rv1.nproc_in_input = rv.nproc_in_input ∧ rv1.cores = rv.cores ∧
    rv1.memory_in_input = rv.memory_in_input ∧
    rv1.gaussian_memory = rv.gaussian_memory := by
  repeat' split at h
  all_goals try cases h
  all_goals simp

theorem occ16_fill_memory_invariants (rv r : Runvalues) (m : ℚ)
    (h : OccG16.fill_missing_values rv = Except.ok r) (hm : r.memory = some m) :
    4096 ≤ m - r.gaussian_memory ∧
    (∀ c : Int, r.nproc_in_input = true → r.cores = some c → 1 ≤ c → c ≤ 28 →
      (c : ℚ) * 2107 ≤ m) := by
  unfold OccG16.fill_missing_values at h
  obtain ⟨rv1, hsec, h⟩ := pyStep_eq_ok h
  obtain ⟨p, hcomp, h⟩ := pyStep_eq_ok h
  dsimp only at h
  split_ifs at h with hov hceil
  · injection h with h
    subst h
    dsimp only at hm ⊢
    injection hm with hm
    subst hm
    constructor
    · show (4096 : ℚ) ≤ p.1 - p.2
      linarith [not_lt.mp hov]
    · intro c hnp hcor h1c h2c
      replace hnp : rv1.nproc_in_input = true := hnp
      replace hcor : rv1.cores = some c := hcor
      exact occ16_compute_bound rv1 p c hcor hnp h1c h2c hcomp

theorem irene_compute_bound (rv : Runvalues) (c : Int) (h1 : 1 ≤ c)
    (hc : (Irene.compute_memory rv).1.cores = some c) :
    (c : ℚ) * 3750 ≤ (Irene.compute_memory rv).2.1 := by
  have hq : (1 : ℚ) ≤ (c : ℚ) := by exact_mod_cast h1
  unfold Irene.compute_memory at hc ⊢
  by_cases hm : rv.memory_in_input = true
  · rw [if_pos hm] at hc ⊢
    cases hcor : rv.cores with
    | none =>
      simp only [hcor] at hc
      exact Option.noConfusion hc
    | some c0 =>
      simp only [hcor] at hc ⊢
      by_cases h0 : c0 ≠ 0
      · rw [if_pos h0] at hc ⊢
        by_cases hrat : rv.gaussian_memory / (c0 : ℚ) > 3750
        · rw [if_pos hrat] at hc ⊢
          simp only at hc ⊢
          simp at hc
          subst hc
          linarith
        · rw [if_neg hrat] at hc ⊢
          simp only at hc ⊢
          rw [hcor] at hc
          simp at hc
          subst hc
          linarith
      · rw [if_neg h0] at hc ⊢
        simp only at hc ⊢
        rw [hcor] at hc
        simp at h0 hc
        omega
  · rw [if_neg hm] at hc ⊢
    cases hcor : rv.cores with
    | none =>
      simp only [hcor] at hc
      exact Option.noConfusion hc
    | some c0 =>
      simp only [hcor] at hc ⊢
      by_cases h0 : c0 ≠ 0
      · rw [if_pos h0] at hc ⊢
        simp only at hc ⊢
        rw [hcor] at hc
        simp at hc
        subst hc
        linarith
      · rw [if_neg h0] at hc ⊢
        simp only at hc ⊢
        rw [hcor] at hc
        simp at h0 hc
        omega

theorem irene_fill_memory_invariants (rv r : Runvalues) (m : ℚ)
    (h : Irene.fill_missing_values rv = Except.ok r) (hm : r.memory = some m) :
    6000 ≤ m - r.gaussian_memory ∧
    (∀ c : Int, r.cores = some c → 1 ≤ c → c ≤ 48 → (c : ℚ) * 3750 ≤ m) := by
  unfold Irene.fill_missing_values at h
  obtain ⟨u1, hA, h⟩ := pyStep_eq_ok h
  obtain ⟨u2, hB, h⟩ := pyStep_eq_ok h
  dsimp only at h
  split_ifs at h with h6 h18
  · injection h with h
    subst h
    dsimp only at hm ⊢
    injection hm with hm
    subst hm
    constructor
    · show (6000 : ℚ) ≤ (Irene.compute_memory rv).2.1 - (Irene.compute_memory rv).2.2
      linarith [not_lt.mp h6]
    · intro c hcor h1c h2c
      exact irene_compute_bound rv c h1c hcor

theorem irene_compute_case_bump (rv : Runvalues) (c : Int)
    (hm : rv.memory_in_input = true) (hcor : rv.cores = some c) (h0 : c ≠ 0)
    (hrat : rv.gaussian_memory / (c : ℚ) > 3750) :
    Irene.compute_memory rv =
      ({ rv with cores := some (pyCeil (rv.gaussian_memory / 3750)) },
        3750 * (pyCeil (rv.gaussian_memory / 3750) : ℚ), rv.gaussian_memory) := by
  unfold Irene.compute_memory
  rw [if_pos hm]
  simp only [hcor]
  rw [if_pos h0, if_pos hrat]

theorem irene_compute_case_nocores (rv : Runvalues)
    (hm : rv.memory_in_input = true) (hc : coresTruthy rv.cores = false) :
    Irene.compute_memory rv = (rv, rv.gaussian_memory + 6000, rv.gaussian_memory) := by
  unfold Irene.compute_memory
  rw [if_pos hm]
  cases hcor : rv.cores with
  | none => simp only [hcor]
  | some c0 =>
    rw [hcor] at hc
    simp [coresTruthy] at hc
    simp only [hcor]
    rw [if_neg (by simpa using hc)]

theorem irene_compute_case_default (rv : Runvalues)
    (hm : rv.memory_in_input = false) (hc : coresTruthy rv.cores = false) :
    Irene.compute_memory rv = (rv, 180000, 170000) := by
  unfold Irene.compute_memory
  rw [if_neg (by simp [hm])]
  cases hcor : rv.cores with
  | none => simp only [hcor]
  | some c0 =>
    rw [hcor] at hc
    simp [coresTruthy] at hc
    simp only [hcor]
    rw [if_neg (by simpa using hc)]

theorem irene_fill_rejects_over_ceiling (rv : Runvalues)
    (hm : rv.memory_in_input = true) (hc : coresTruthy rv.cores = false)
    (hnodes : rv.nodes = 1) (hnp : rv.nproc_in_input = false)
    (hg : rv.gaussian_memory > 180000) :
    Irene.fill_missing_values rv = Except.error "Exceeded max allowed memory" := by
  unfold Irene.fill_missing_values
  rw [if_neg (by omega)]
  simp only [pyStep]
  rw [if_neg (by simp [hnp])]
  simp only [pyStep]
  rw [irene_compute_case_nocores rv hm hc]
  dsimp only
  rw [if_neg (by norm_num), if_pos (by linarith)]

theorem fill_cli_cores (rv : Runvalues) (cm : Cmdline) (n : Int)
    (h : cm.cores = some n) (hn : n ≠ 0) :
    (fill_from_commandline rv cm).cores = some n := by
  rcases cm with ⟨ci, cw, cmem, cc, cn⟩
  simp only at h
  subst h
  unfold fill_from_commandline
  cases cn <;> cases cw <;> cases cmem <;> dsimp only <;>
    (try split_ifs) <;> simp_all

theorem fill_cli_walltime (rv : Runvalues) (cm : Cmdline) (w : String)
    (h : cm.walltime = some w) (hw : w ≠ "") :
    (fill_from_commandline rv cm).walltime = w := by
  rcases cm with ⟨ci, cw, cmem, cc, cn⟩
  simp only at h
  subst h
  unfold fill_from_commandline
  cases cn <;> cases cc <;> cases cmem <;> dsimp only <;>
    (try split_ifs) <;> simp_all

theorem fill_cli_nodes (rv : Runvalues) (cm : Cmdline) (n : Int)
    (h : cm.nodes = some n) (hn : n ≠ 0) :
    (fill_from_commandline rv cm).nodes = n := by
  rcases cm with ⟨ci, cw, cmem, cc, cn⟩
  simp only at h
  subst h
  unfold fill_from_commandline
  cases cc <;> cases cw <;> cases cmem <;> dsimp only <;>
    (try split_ifs) <;> simp_all

theorem fill_none_nodes (rv : Runvalues) (cm : Cmdline) (h : cm.nodes = none) :
    (fill_from_commandline rv cm).nodes = rv.nodes := by
  rcases cm with ⟨ci, cw, cmem, cc, cn⟩
  simp only at h
  subst h
  unfold fill_from_commandline
  cases cc <;> cases cw <;> cases cmem <;> dsimp only <;>
    (try split_ifs) <;> simp_all

theorem scan_nproc8 (rv : Runvalues) :
    Irene.scan_gaussian_line rv "%nproc=8" =
      Except.ok { rv with nproc_in_input := true, cores := some 8 } := by
  rfl

theorem irene_compute_nomem_truthy (rv : Runvalues) (c : Int)
    (hm : rv.memory_in_input = false) (hcor : rv.cores = some c) (h0 : c ≠ 0) :
    Irene.compute_memory rv =
      (rv, 3750 * (c : ℚ), max (3750 * (c : ℚ) - 6000) 2000) := by
  unfold Irene.compute_memory
  rw [if_neg (by simp [hm])]
  simp only [hcor]
  rw [if_pos h0]

theorem scan_file_nproc8 (rv : Runvalues) :
    Irene.get_values_from_gaussian_input_file ["%nproc=8"] rv =
      Except.ok { rv with nproc_in_input := true, cores := some 8 } := by
  rfl

theorem irene_fill_ok_of_nomem_cores (rv : Runvalues) (c : Int)
    (hnodes : ¬rv.nodes > 1) (hnp : rv.nproc_in_input = true) (hcor : rv.cores = some c)
    (hc48 : ¬c > 48) (hm : rv.memory_in_input = false) (h0 : c ≠ 0)
    (hval : ¬(3750 * (c : ℚ) - max (3750 * (c : ℚ) - 6000) 2000 < 6000))
    (hceil : ¬(max (3750 * (c : ℚ) - 6000) 2000 > 180000)) :
    Irene.fill_missing_values rv =
      Except.ok { rv with memory := some (3750 * (c : ℚ)), gaussian_memory := max (3750 * (c : ℚ) - 6000) 2000 } := by
  unfold Irene.fill_missing_values
  rw [if_neg hnodes]
  simp only [pyStep]
  rw [if_pos hnp]
  simp only [hcor]
  rw [if_neg hc48]
  simp only [pyStep]
  rw [irene_compute_nomem_truthy rv c hm hcor h0]
  dsimp only
  rw [if_neg hval, if_neg hceil, hcor]

/-- Claim C1 (corrected).  The spec says CLI overrides file directives on
every variant; on Irene the command-line merge runs before the input-file
scan, so a `%nproc` directive in the file overrides the CLI core count:
with CLI cores `k` and a `%nproc=8` line the resolved value is 8. -/
theorem C1_corrected (k : Int) (r : Runvalues)
    (h : Irene.computation_init "g16" ⟨"mol.com", some "24:00:00", none, some k, none⟩
        ["%nproc=8"] = Except.ok r) :
    r.cores = some 8 := by
  unfold Irene.computation_init at h
  obtain ⟨rv1, hscan, hfill⟩ := pyStep_eq_ok h
  rw [if_pos rfl] at hscan
  rw [scan_file_nproc8] at hscan
  injection hscan with hscan
  subst hscan
  set S := fill_from_commandline Irene.default_run_values
    ⟨"mol.com", some "24:00:00", none, some k, none⟩ with hS
  have hnodes : S.nodes = 1 := by
    rw [hS, fill_none_nodes _ _ rfl]
    rfl
  have hmem : S.memory_in_input = false := by
    rw [hS]
    exact (fill_from_commandline_preserves _ _).2.1
  rw [irene_fill_ok_of_nomem_cores _ 8 (by simp [hnodes]) rfl rfl
    (by norm_num) (by simpa using hmem) (by norm_num)
    (by rw [show (max (3750 * ((8 : Int) : ℚ) - 6000) 2000) = 24000 by norm_num]; norm_num)
    (by rw [show (max (3750 * ((8 : Int) : ℚ) - 6000) 2000) = 24000 by norm_num]; norm_num)] at hfill
  injection hfill with hfill
  subst hfill
  rfl

theorem scan_line_inert (rv : Runvalues) (line : String)
    (h1 : strContains (strLower line) "%nproc" = false)
    (h2 : strContains (strLower line) "%chk" = false)
    (h3 : strContains (strLower line) "%oldchk" = false)
    (h4 : strContains (strLower line) "%rwf" = false)
    (h5 : strContains (strLower line) "%mem" = false)
    (h6 : strContains (strLower line) "nbo6" = false)
    (h7 : strContains (strLower line) "npa6" = false)
    (h8 : strContains line "FILE=" = false) :
    OccG16.scan_line rv line = Except.ok rv := by
  unfold OccG16.scan_line
  simp only [h1, h2, h3, h4, h5, h6, h7, h8, Bool.false_eq_true, if_false, pyStep,
    Bool.or_self]

/-- Claim C6 (corrected).  The scanner is inert only on lines that contain
no recognized keyword; a recognized keyword with a malformed value raises
(see the counterexample), so the scanner is not total as claimed. -/
theorem C6_corrected (rv : Runvalues) (lines : List String)
    (h : ∀ l ∈ lines,
      strContains (strLower l) "%nproc" = false ∧
      strContains (strLower l) "%chk" = false ∧
      strContains (strLower l) "%oldchk" = false ∧
      strContains (strLower l) "%rwf" = false ∧
      strContains (strLower l) "%mem" = false ∧
      strContains (strLower l) "nbo6" = false ∧
      strContains (strLower l) "npa6" = false ∧
      strContains l "FILE=" = false) :
    OccG16.get_values_from_input_file lines rv = Except.ok rv := by
  induction lines generalizing rv with
  | nil => rfl
  | cons l ls ih =>
    have hl := h l (by simp)
    unfold OccG16.get_values_from_input_file at ih ⊢
    rw [List.foldlM_cons, scan_line_inert rv l hl.1 hl.2.1 hl.2.2.1 hl.2.2.2.1
      hl.2.2.2.2.1 hl.2.2.2.2.2.1 hl.2.2.2.2.2.2.1 hl.2.2.2.2.2.2.2]
    simpa using ih rv (fun x hx => h x (by simp [hx]))

theorem scan_orca_pal8 (rv : Runvalues) :
    Irene.scan_orca_line rv "! Opt PAL8 Freq" =
      Except.ok { rv with nproc_in_input := true, cores := some 8 } := by
  rfl

theorem scan_orca_line_preserves (rv r : Runvalues) (l : String)
    (hp : strContains (strLower l) "pal" = false)
    (hn : strContains (strLower l) "nprocs" = false)
    (h : Irene.scan_orca_line rv l = Except.ok r) :
    r.cores = rv.cores ∧ r.nproc_in_input = rv.nproc_in_input := by
  unfold Irene.scan_orca_line at h
  simp only [hp, hn, Bool.false_eq_true, if_false] at h
  obtain ⟨r1, h1, h⟩ := pyStep_eq_ok h
  obtain ⟨r2, h2, h⟩ := pyStep_eq_ok h
  obtain ⟨r3, h3, h⟩ := pyStep_eq_ok h
  obtain ⟨r4, h4, h⟩ := pyStep_eq_ok h
  obtain ⟨r5, h5, h⟩ := pyStep_eq_ok h
  injection h with h
  subst h
  have p1 : r1.cores = rv.cores ∧ r1.nproc_in_input = rv.nproc_in_input := by
    all_goals try cases h1
    all_goals simp
  have p2 : r2.cores = r1.cores ∧ r2.nproc_in_input = r1.nproc_in_input := by
    repeat' split at h2
    all_goals try cases h2
    all_goals simp
  have p3 : r3.cores = r2.cores ∧ r3.nproc_in_input = r2.nproc_in_input := by
    repeat' split at h3
    all_goals try cases h3
    all_goals simp
  have p4 : r4.cores = r3.cores ∧ r4.nproc_in_input = r3.nproc_in_input := by
    repeat' split at h4
    all_goals try cases h4
    all_goals simp
  have p5 : r5.cores = r4.cores ∧ r5.nproc_in_input = r4.nproc_in_input := by
    repeat' split at h5
    all_goals try cases h5
    all_goals simp
  exact ⟨by rw [p5.1, p4.1, p3.1, p2.1, p1.1], by rw [p5.2, p4.2, p3.2, p2.2, p1.2]⟩

theorem except_bind_ok {α β : Type} {x : Except String α} {f : α → Except String β} {b : β}
    (h : (x >>= f) = .ok b) : ∃ a, x = .ok a ∧ f a = .ok b := by
  cases x with
  | error e => simp [Bind.bind, Except.bind] at h
  | ok a => exact ⟨a, rfl, by simpa [Bind.bind, Except.bind] using h⟩

theorem scan_orca_file_preserves (rest : List String) (rv r : Runvalues)
    (hrest : ∀ l ∈ rest, strContains (strLower l) "pal" = false ∧
      strContains (strLower l) "nprocs" = false)
    (h : Irene.get_values_from_orca_input_file rest rv = Except.ok r) :
    r.cores = rv.cores ∧ r.nproc_in_input = rv.nproc_in_input := by
  induction rest generalizing rv with
  | nil =>
    injection h with h
    subst h
    exact ⟨rfl, rfl⟩
  | cons l ls ih =>
    unfold Irene.get_values_from_orca_input_file at h
    rw [List.foldlM_cons] at h
    obtain ⟨r1, h1, h⟩ := except_bind_ok h
    have hl := hrest l (by simp)
    have p1 := scan_orca_line_preserves rv r1 l hl.1 hl.2 h1
    have p2 := ih r1 (fun x hx => hrest x (List.mem_cons_of_mem _ hx)) h
    exact ⟨by rw [p2.1, p1.1], by rw [p2.2, p1.2]⟩

/-- Claim C8 (corrected).  The Irene ORCA scanner resolves an inline
`PAL8` to cores 8 with `nproc_in_input` true; the OCCIGEN ORCA scanner has
no PAL handling at all and leaves the defaults (see the
counterexample). -/
theorem C8_corrected (rv r : Runvalues) (rest : List String)
    (hrest : ∀ l ∈ rest, strContains (strLower l) "pal" = false ∧
      strContains (strLower l) "nprocs" = false)
    (h : Irene.get_values_from_orca_input_file ("! Opt PAL8 Freq" :: rest) rv =
      Except.ok r) :
    r.cores = some 8 ∧ r.nproc_in_input = true := by
  unfold Irene.get_values_from_orca_input_file at h
  rw [List.foldlM_cons, scan_orca_pal8] at h
  simp only [Bind.bind, Except.bind] at h
  have := scan_orca_file_preserves rest _ r hrest h
  simpa using this

theorem perm_len_le_one_eq {l1 l2 : List String} (h : l1.Perm l2) (hl : l1.length ≤ 1) :
    l1 = l2 := by
  cases l1 with
  | nil => exact (List.Perm.eq_nil h.symm).symm
  | cons a t =>
    cases t with
    | nil =>
      have h2 : l2.length = 1 := by simpa using h.length_eq.symm
      cases l2 with
      | nil => simp at h2
      | cons b t2 =>
        cases t2 with
        | nil =>
          have : a ∈ [b] := h.mem_iff.mp (by simp)
          simp at this
          rw [this]
        | cons c t3 => simp at h2
    | cons b t2 => simp at hl

/-- Claim C9 (corrected).  Script composition is a function of the
resolved record, but the chk/oldchk/rwf file sets are Python sets whose
iteration order is unspecified: determinism holds when those sets have at
most one element (equal as lists), and fails for a two-element set under a
different iteration order (see the counterexample). -/
theorem C9_corrected (r1 r2 : Runvalues)
    (hfields : r2 = { r1 with chk := r2.chk, oldchk := r2.oldchk, rwf := r2.rwf })
    (hchk : r1.chk.Perm r2.chk) (holdchk : r1.oldchk.Perm r2.oldchk)
    (hrwf : r1.rwf.Perm r2.rwf) (n1 : r1.chk.length ≤ 1) (n2 : r1.oldchk.length ≤ 1)
    (n3 : r1.rwf.length ≤ 1) :
    OccG16.scriptText r1 = OccG16.scriptText r2 := by
  have e1 := perm_len_le_one_eq hchk n1
  have e2 := perm_len_le_one_eq holdchk n2
  have e3 := perm_len_le_one_eq hrwf n3
  have : r2 = r1 := by
    rw [hfields, ← e1, ← e2, ← e3]
  rw [this]

/-- Counterexample to the frozen C9: the same two-element chk set listed
in two iteration orders yields different script bytes. -/
theorem C9_counterexample :
    (["a.chk", "b.chk"] : List String).Perm ["b.chk", "a.chk"] ∧
    OccG16.scriptText { OccG16.default_run_values with inputfile := "mol.com", chk := ["a.chk", "b.chk"] } ≠
      OccG16.scriptText { OccG16.default_run_values with inputfile := "mol.com", chk := ["b.chk", "a.chk"] } := by
  constructor
  · decide
  · decide

theorem occ16_timeout_membership (rv : Runvalues) (out : List String) (wl : List Int)
    (h0 m0 s0 : Int) (hw : walltimeParts rv.walltime = Except.ok wl)
    (hi0 : pyIdx wl 0 = Except.ok h0) (hi1 : pyIdx wl 1 = Except.ok m0)
    (hi2 : pyIdx wl 2 = Except.ok s0) (hout : OccG16.create_run_file rv = Except.ok out) :
    ("timeout " ++ toString (3600 * h0 + 60 * m0 + s0 - 60) ++ " g16 > ") ∈ out := by
  unfold OccG16.create_run_file at hout
  rw [hw] at hout
  simp only [pyStep] at hout
  rw [hi0] at hout
  simp only [pyStep] at hout
  rw [hi1] at hout
  simp only [pyStep] at hout
  rw [hi2] at hout
  simp only [pyStep] at hout
  injection hout with hout
  subst hout
  simp [List.mem_append]

theorem suborca_runtime_formula (wt : String) (wl : List Int) (h0 m0 s0 : Int)
    (hw : walltimeParts wt = Except.ok wl) (hi0 : pyIdx wl 0 = Except.ok h0)
    (hi1 : pyIdx wl 1 = Except.ok m0) (hi2 : pyIdx wl 2 = Except.ok s0) :
    OccOrca.runtime_seconds wt = Except.ok (max (3600 * h0 + 60 * m0 + s0 - 60) 60) := by
  unfold OccOrca.runtime_seconds
  rw [hw]
  simp only [pyStep]
  rw [hi0]
  simp only [pyStep]
  rw [hi1]
  simp only [pyStep]
  rw [hi2]


theorem jz_fill_ok (rv : Runvalues) (hnp : rv.nproc_in_input = false)
    (hm : rv.memory_in_input = false) :
    JeanZay.fill_missing_values rv =
      Except.ok { rv with cluster_section := "HSW24|BDW28", memory := some 160000, gaussian_memory := 140000 } := by
  unfold JeanZay.fill_missing_values JeanZay.compute_memory
  rw [if_pos hnp]
  simp only [pyStep, hm, Bool.false_eq_true, if_false]
  norm_num

theorem jz_ntasks_membership (software : String) (rv : Runvalues) (out : List String)
    (hnp : rv.nproc_in_input = false)
    (hout : JeanZay.create_run_file software rv = Except.ok out) :
    ("#SBATCH --ntasks=40\n") ∈ out := by
  unfold JeanZay.create_run_file at hout
  obtain ⟨w, hw, hout⟩ := pyStep_eq_ok hout
  obtain ⟨h0, hp0, hout⟩ := pyStep_eq_ok hout
  obtain ⟨m0, hp1, hout⟩ := pyStep_eq_ok hout
  obtain ⟨s0, hp2, hout⟩ := pyStep_eq_ok hout
  injection hout with hout
  subst hout
  simp [hnp, List.mem_append]

/-- Claim C10 (confirmed).  The Jean Zay constructor never scans the input
file: for every command line the resolution succeeds with
`memory_in_input` and `nproc_in_input` false, scheduler memory 160000 MB,
software memory 140000 MB, and the generated script requests
`--ntasks=40`. -/
theorem C10_confirmed (cm : Cmdline) :
    ∃ r, JeanZay.computation_init cm = Except.ok r ∧
      r.memory_in_input = false ∧ r.nproc_in_input = false ∧
      r.memory = some 160000 ∧ r.gaussian_memory = 140000 ∧
      ∀ software out, JeanZay.create_run_file software r = Except.ok out →
        ("#SBATCH --ntasks=40\n") ∈ out := by
  have hpres := fill_from_commandline_preserves JeanZay.default_run_values cm
  generalize hS : fill_from_commandline JeanZay.default_run_values cm = S at hpres
  obtain ⟨hnp, hmi, -⟩ := hpres
  have hnp2 : S.nproc_in_input = false := by rw [hnp]; rfl
  have hmi2 : S.memory_in_input = false := by rw [hmi]; rfl
  refine ⟨{ S with cluster_section := "HSW24|BDW28", memory := some 160000, gaussian_memory := 140000 }, ?_, hmi2, hnp2, rfl, rfl, ?_⟩
  · show JeanZay.computation_init cm = _
    unfold JeanZay.computation_init
    rw [hS]
    exact jz_fill_ok S hnp2 hmi2
  · intro software out hout
    refine jz_ntasks_membership software _ out ?_ hout
    exact hnp2

/-- Claim C5 (confirmed).  Unit conversion of `%mem` directives: MB is
unchanged, GB is times 1024 in the g16-era scanners and times 1000 in the
g09-era scanners, MW divides by 8, GW applies the byte multiplier then
divides by 8; wired through the OCCIGEN g16 and ADA scanners on
`%mem=8GB`. -/
theorem C5_confirmed (old : ℚ) (n : Nat) (_hn : 0 < n) :
    (mem_unit_to_mb_1024 old n ("MB") = n ∧ mem_unit_to_mb_1024 old n ("GB") = n * 1024 ∧
     mem_unit_to_mb_1024 old n ("MW") = n / 8 ∧ mem_unit_to_mb_1024 old n ("GW") = n * 1024 / 8) ∧
    (mem_unit_to_mb_1000 old n ("MB") = n ∧ mem_unit_to_mb_1000 old n ("GB") = n * 1000 ∧
     mem_unit_to_mb_1000 old n ("MW") = n / 8 ∧ mem_unit_to_mb_1000 old n ("GW") = n * 1000 / 8) ∧
    (∀ rv : Runvalues, OccG16.scan_line rv ("%mem=8GB") =
      Except.ok { rv with memory_in_input := true, gaussian_memory := 8192 }) ∧
    (∀ rv : Runvalues, AdaG09.scan_line rv ("%mem=8GB") =
      Except.ok { rv with memory_in_input := true, gaussian_memory := 8000 }) := by
  refine ⟨⟨rfl, rfl, rfl, ?_⟩, ⟨rfl, rfl, rfl, ?_⟩, fun rv => ?_, fun rv => ?_⟩
  · show (n : ℚ) * 1024 / 8 = n * 1024 / 8
    rfl
  · show (n : ℚ) / 8 * 1000 = n * 1000 / 8
    ring
  · rfl
  · rfl

theorem occ16_rejects_nproc_over_28 (rv : Runvalues) (c : Int) (h1 : rv.nproc_in_input = true)
    (h2 : rv.cores = some c) (h3 : 28 < c) (h4 : rv.nodes = 1) :
    OccG16.fill_missing_values rv =
      Except.error "Number of cores cannot exceed 28 for one node." := by
  unfold OccG16.fill_missing_values
  rw [h1, h2]
  simp [h4, show ¬(c ≤ 24) by omega, show ¬(c ≤ 28) by omega, h3, pyStep]

/-- Counterexample to the frozen C1: CLI cores 4 plus file `%nproc=8`
resolve to 8, not the CLI value 4. -/
theorem C1_counterexample :
    (Irene.computation_init ("g16") ⟨"mol.com", some ("24:00:00"), none, some 4, none⟩
        ["%nproc=8"]).map Runvalues.cores = Except.ok (some 8) ∧
    (Except.ok (some (8 : Int)) : Except String (Option Int)) ≠ Except.ok (some 4) := by
  exact ⟨by decide, by decide⟩

/-- Witness for C1_corrected at k = 4. -/
theorem C1_witness :
    Irene.computation_init ("g16") ⟨"mol.com", some ("24:00:00"), none, some 4, none⟩
        ["%nproc=8"] =
      Except.ok { Irene.default_run_values with inputfile := "mol.com", cores := some 8, nproc_in_input := true, memory := some 30000, gaussian_memory := 24000 } ∧
    ({ Irene.default_run_values with inputfile := "mol.com", cores := some 8, nproc_in_input := true, memory := some 30000, gaussian_memory := 24000 } : Runvalues).cores =
      some 8 := by
  refine ⟨by decide, C1_corrected 4 _ (by decide)⟩

/-- Claim C2 (corrected).  The overhead and per-core memory invariants hold
on the variants that validate them: OCCIGEN g16 (4096 MB overhead, 2107 MB
per core for 1 <= c <= 28) and Irene (6000 MB overhead, 3750 MB per core
for 1 <= c <= 48); OCCIGEN g09 performs no such validation, so the frozen
claim fails on that variant. -/
theorem C2_corrected (rv1 r1 rv2 r2 : Runvalues) (m1 m2 : ℚ)
    (h1 : OccG16.fill_missing_values rv1 = Except.ok r1) (hm1 : r1.memory = some m1)
    (h2 : Irene.fill_missing_values rv2 = Except.ok r2) (hm2 : r2.memory = some m2) :
    (4096 ≤ m1 - r1.gaussian_memory ∧
      (∀ c : Int, r1.nproc_in_input = true → r1.cores = some c → 1 ≤ c → c ≤ 28 →
        (c : ℚ) * 2107 ≤ m1)) ∧
    (6000 ≤ m2 - r2.gaussian_memory ∧
      (∀ c : Int, r2.cores = some c → 1 ≤ c → c ≤ 48 → (c : ℚ) * 3750 ≤ m2)) :=
  ⟨occ16_fill_memory_invariants rv1 r1 m1 h1 hm1,
   irene_fill_memory_invariants rv2 r2 m2 h2 hm2⟩

/-- Counterexample to the frozen C2: on OCCIGEN g09 a CLI request of
10000 MB with 1 core yields scheduler memory 4800 MB below the software
memory 10000 MB, with no validation error. -/
theorem C2_counterexample :
    (OccG09.fill_missing_values (fill_from_commandline OccG09.default_run_values
        ⟨"a.com", some ("24:00:00"), some 10000, some 1, some 1⟩)).map
        (fun r => (r.memory, r.gaussian_memory)) = Except.ok (some 4800, 10000) ∧
    ¬((0 : ℚ) ≤ 4800 - 10000) := by
  exact ⟨by decide, by decide⟩

/-- Witness for C2_corrected on two concrete successful allocations. -/
theorem C2_witness :
    4096 ≤ (59000 : ℚ) -
      ({ OccG16.default_run_values with inputfile := "a.com", cores := some 24, memory := some 59000, gaussian_memory := 53000, cluster_section := "HSW24|BDW28" } : Runvalues).gaussian_memory ∧
    6000 ≤ (180000 : ℚ) -
      ({ Irene.default_run_values with inputfile := "mol.com", memory := some 180000, gaussian_memory := 170000 } : Runvalues).gaussian_memory := by
  have h := C2_corrected
    (fill_from_commandline OccG16.default_run_values
      ⟨"a.com", some ("24:00:00"), none, some 24, none⟩)
    { OccG16.default_run_values with inputfile := "a.com", cores := some 24, memory := some 59000, gaussian_memory := 53000, cluster_section := "HSW24|BDW28" }
    (fill_from_commandline Irene.default_run_values
      ⟨"mol.com", some ("24:00:00"), none, none, none⟩)
    { Irene.default_run_values with inputfile := "mol.com", memory := some 180000, gaussian_memory := 170000 }
    59000 180000 (by decide) (by decide) (by decide) (by decide)
  exact ⟨h.1.1, h.2.1⟩

/-- Claim C3 (corrected).  The 28-core limit fires only when the core count
was read from the input file (`nproc_in_input` true); a core count supplied
only on the command line bypasses the check entirely, so the frozen claim
is wrong for CLI-only cores. -/
theorem C3_corrected (rv : Runvalues) (c : Int) (h1 : rv.nproc_in_input = true)
    (h2 : rv.cores = some c) (h3 : 28 < c) (h4 : rv.nodes = 1) :
    OccG16.fill_missing_values rv =
      Except.error ("Number of cores cannot exceed 28 for one node.") :=
  occ16_rejects_nproc_over_28 rv c h1 h2 h3 h4

/-- Counterexample to the frozen C3: a CLI request of 60 cores on one node
resolves without error, with cores 60 and memory 59000. -/
theorem C3_counterexample :
    (OccG16.main_resolve [] ⟨"mol.com", some ("24:00:00"), none, some 60, none⟩).isOk = true ∧
    (OccG16.main_resolve [] ⟨"mol.com", some ("24:00:00"), none, some 60, none⟩).map
        (fun r => (r.cores, r.nodes, r.memory)) = Except.ok (some 60, 1, some 59000) ∧
    (28 : Int) < 60 := by
  exact ⟨by decide, by decide, by decide⟩

/-- Witness for C3_corrected at 60 cores read from the input file. -/
theorem C3_witness :
    OccG16.fill_missing_values
        { OccG16.default_run_values with nproc_in_input := true, cores := some 60 } =
      Except.error ("Number of cores cannot exceed 28 for one node.") :=
  C3_corrected _ 60 rfl rfl (by decide) rfl

/-- Claim C4 (corrected).  The Irene `compute_memory` cases: the core bump
to ceil(mem/3750) and the no-information default (180000, 170000) are as
the spec says, but the memory-without-cores case allocates requested + 6000
with no cap at the 180000 MB ceiling; over-ceiling software memory is
instead rejected later by `fill_missing_values`. -/
theorem C4_corrected (rv : Runvalues) :
    (∀ c : Int, rv.memory_in_input = true → rv.cores = some c → c ≠ 0 →
      rv.gaussian_memory / (c : ℚ) > 3750 →
      Irene.compute_memory rv =
        ({ rv with cores := some (pyCeil (rv.gaussian_memory / 3750)) },
          3750 * (pyCeil (rv.gaussian_memory / 3750) : ℚ), rv.gaussian_memory)) ∧
    (rv.memory_in_input = true → coresTruthy rv.cores = false →
      Irene.compute_memory rv = (rv, rv.gaussian_memory + 6000, rv.gaussian_memory)) ∧
    (rv.memory_in_input = false → coresTruthy rv.cores = false →
      Irene.compute_memory rv = (rv, 180000, 170000)) ∧
    (rv.memory_in_input = true → coresTruthy rv.cores = false → rv.nodes = 1 →
      rv.nproc_in_input = false → rv.gaussian_memory > 180000 →
      Irene.fill_missing_values rv = Except.error ("Exceeded max allowed memory")) :=
  ⟨fun c hm hcor h0 hrat => irene_compute_case_bump rv c hm hcor h0 hrat,
   fun hm hc => irene_compute_case_nocores rv hm hc,
   fun hm hc => irene_compute_case_default rv hm hc,
   fun hm hc hnodes hnp hg => irene_fill_rejects_over_ceiling rv hm hc hnodes hnp hg⟩

/-- Counterexample to the frozen C4: a declared memory of 180000 MB yields
a scheduler request of 186000 MB, above the claimed 180000 MB cap. -/
theorem C4_counterexample :
    (Irene.computation_init ("g16") ⟨"mol.com", some ("24:00:00"), none, none, none⟩
        ["%mem=180000MB"]).map Runvalues.memory = Except.ok (some 186000) ∧
    ¬((186000 : ℚ) ≤ 180000) := by
  exact ⟨by decide, by decide⟩

/-- Witness for C4_corrected on the four concrete cases. -/
theorem C4_witness :
    Irene.compute_memory
        { Irene.default_run_values with memory_in_input := true, cores := some 4, gaussian_memory := 30000 } =
      ({ Irene.default_run_values with memory_in_input := true, cores := some 8, gaussian_memory := 30000 }, 30000, 30000) ∧
    Irene.compute_memory
        { Irene.default_run_values with memory_in_input := true, gaussian_memory := 20000 } =
      ({ Irene.default_run_values with memory_in_input := true, gaussian_memory := 20000 },
        26000, 20000) ∧
    Irene.compute_memory Irene.default_run_values =
      (Irene.default_run_values, 180000, 170000) ∧
    Irene.fill_missing_values
        { Irene.default_run_values with memory_in_input := true, gaussian_memory := 200000 } =
      Except.error ("Exceeded max allowed memory") := by
  refine ⟨?_, ?_, ?_, ?_⟩
  · have h := (C4_corrected { Irene.default_run_values with memory_in_input := true, cores := some 4, gaussian_memory := 30000 }).1 4 (by decide) (by decide)
      (by decide) (by decide)
    rw [h]
    decide
  · have h := (C4_corrected { Irene.default_run_values with memory_in_input := true, gaussian_memory := 20000 }).2.1 (by decide) (by decide)
    rw [h]
    decide
  · have h := (C4_corrected Irene.default_run_values).2.2.1 (by decide) (by decide)
    rw [h]
  · exact (C4_corrected { Irene.default_run_values with memory_in_input := true, gaussian_memory := 200000 }).2.2.2 (by decide) (by decide) (by decide) (by decide)
      (by decide)

/-- Witness for C5_confirmed at n = 8. -/
theorem C5_witness :
    (0 : ℕ) < 8 ∧
    ((mem_unit_to_mb_1024 0 8 ("MB") = (8 : ℕ) ∧
      mem_unit_to_mb_1024 0 8 ("GB") = (8 : ℕ) * 1024 ∧
      mem_unit_to_mb_1024 0 8 ("MW") = (8 : ℕ) / 8 ∧
      mem_unit_to_mb_1024 0 8 ("GW") = (8 : ℕ) * 1024 / 8) ∧
     (mem_unit_to_mb_1000 0 8 ("MB") = (8 : ℕ) ∧
      mem_unit_to_mb_1000 0 8 ("GB") = (8 : ℕ) * 1000 ∧
      mem_unit_to_mb_1000 0 8 ("MW") = (8 : ℕ) / 8 ∧
      mem_unit_to_mb_1000 0 8 ("GW") = (8 : ℕ) * 1000 / 8) ∧
     (∀ rv : Runvalues, OccG16.scan_line rv ("%mem=8GB") =
       Except.ok { rv with memory_in_input := true, gaussian_memory := 8192 }) ∧
     (∀ rv : Runvalues, AdaG09.scan_line rv ("%mem=8GB") =
       Except.ok { rv with memory_in_input := true, gaussian_memory := 8000 })) :=
  ⟨by decide, C5_confirmed 0 8 (by decide)⟩

/-- Counterexample to the frozen C6: `%mem=500` (missing unit suffix)
makes the scanner raise instead of skipping the directive. -/
theorem C6_counterexample :
    OccG16.get_values_from_input_file ["%mem=500"] OccG16.default_run_values =
      Except.error ("AttributeError: NoneType object has no attribute groups") := by
  decide

/-- Witness for C6_corrected on two inert lines. -/
theorem C6_witness :
    OccG16.get_values_from_input_file ["# comment", "B3LYP opt freq"]
        OccG16.default_run_values = Except.ok OccG16.default_run_values :=
  C6_corrected OccG16.default_run_values ["# comment", "B3LYP opt freq"] (by decide)

/-- Claim C7 (corrected).  The OCCIGEN g16 script wraps the invocation in
`timeout` with walltime minus 60 seconds as claimed; the OCCIGEN ORCA
variant floors the guard at 60 seconds (max (wt - 60) 60), and the LISA ADF
script has no guard at all (see the counterexample). -/
theorem C7_corrected (rv : Runvalues) (wl : List Int) (h0 m0 s0 : Int)
    (hw : walltimeParts rv.walltime = Except.ok wl)
    (hi0 : pyIdx wl 0 = Except.ok h0) (hi1 : pyIdx wl 1 = Except.ok m0)
    (hi2 : pyIdx wl 2 = Except.ok s0) :
    (∀ out, OccG16.create_run_file rv = Except.ok out →
      ("timeout " ++ toString (3600 * h0 + 60 * m0 + s0 - 60) ++ " g16 > ") ∈ out) ∧
    OccOrca.runtime_seconds rv.walltime =
      Except.ok (max (3600 * h0 + 60 * m0 + s0 - 60) 60) :=
  ⟨fun out hout => occ16_timeout_membership rv out wl h0 m0 s0 hw hi0 hi1 hi2 hout,
   suborca_runtime_formula rv.walltime wl h0 m0 s0 hw hi0 hi1 hi2⟩

/-- Counterexample to the frozen C7: a walltime of 00:01:00 gives an ORCA
guard of 60 seconds, not 0; and no line of the LISA ADF script mentions
`timeout`. -/
theorem C7_counterexample :
    OccOrca.runtime_seconds ("00:01:00") = Except.ok 60 ∧
    ((60 : Int) ≠ 3600 * 0 + 60 * 1 + 0 - 60) ∧
    ((LisaAdf.prepFile "job.run" "/home/user" LisaAdf.getdefaults
      ["#!/bin/sh", "$ADFBIN/adf <<eor", "ATOMS", "END INPUT", "eor"]).all
        (fun l => !(strContains l ("timeout")))) = true := by
  exact ⟨by decide, by decide, by decide⟩

/-- Witness for C7_corrected at walltime 24:00:00. -/
theorem C7_witness :
    (∀ out, OccG16.create_run_file
        { OccG16.default_run_values with inputfile := "a.com", cores := some 24 } =
        Except.ok out →
      ("timeout " ++ toString (3600 * (24 : Int) + 60 * 0 + 0 - 60) ++ " g16 > ") ∈ out) ∧
    OccOrca.runtime_seconds
        ({ OccG16.default_run_values with inputfile := "a.com", cores := some 24 } : Runvalues).walltime =
      Except.ok (max (3600 * (24 : Int) + 60 * 0 + 0 - 60) 60) :=
  C7_corrected _ [24, 0, 0] 24 0 0 (by decide) (by decide) (by decide) (by decide)

/-- Counterexample to the frozen C8: OCCIGEN suborca leaves
(nproc_in_input, cores) at (false, 24) on `! Opt PAL8 Freq`. -/
theorem C8_counterexample :
    (OccOrca.get_values_from_input_file ["! Opt PAL8 Freq"]
        OccOrca.default_run_values).map (fun r => (r.nproc_in_input, r.cores)) =
      Except.ok (false, some 24) ∧
    ((false, some (24 : Int)) ≠ (true, some (8 : Int))) := by
  exact ⟨by decide, by decide⟩

/-- Witness for C8_corrected on a one-line ORCA header. -/
theorem C8_witness :
    Irene.get_values_from_orca_input_file ["! Opt PAL8 Freq"] Irene.default_run_values =
      Except.ok { Irene.default_run_values with nproc_in_input := true, cores := some 8 } ∧
    ({ Irene.default_run_values with nproc_in_input := true, cores := some 8 } : Runvalues).cores = some 8 ∧
    ({ Irene.default_run_values with nproc_in_input := true, cores := some 8 } : Runvalues).nproc_in_input = true := by
  refine ⟨by decide, ?_, ?_⟩
  · exact (C8_corrected Irene.default_run_values _ [] (by decide) (by decide)).1
  · exact (C8_corrected Irene.default_run_values _ [] (by decide) (by decide)).2

/-- Witness for C9_corrected on a one-element chk set. -/
theorem C9_witness :
    OccG16.scriptText
        { OccG16.default_run_values with inputfile := "mol.com", chk := ["a.chk"] } =
      OccG16.scriptText
        { OccG16.default_run_values with inputfile := "mol.com", chk := ["a.chk"] } :=
  C9_corrected _ _ rfl (List.Perm.refl _) (List.Perm.refl _) (List.Perm.refl _)
    (by decide) (by decide) (by decide)

/-- Witness for C10_confirmed on a bare command line. -/
theorem C10_witness :
    ∃ r, JeanZay.computation_init ⟨"mol.com", none, none, none, none⟩ = Except.ok r ∧
      r.memory_in_input = false ∧ r.nproc_in_input = false ∧
      r.memory = some 160000 ∧ r.gaussian_memory = 140000 ∧
      ∀ software out, JeanZay.create_run_file software r = Except.ok out →
        ("#SBATCH --ntasks=40\n") ∈ out :=
  C10_confirmed ⟨"mol.com", none, none, none, none⟩
